import Mathlib

/-!
# openvassd: the scanner daemon's connection lifecycle

A shallow embedding of `src/openvassd.c` and theorems about it.

Conventions of the embedding.

* A C `char` is a `Char`; a byte buffer and the content of a file are `List Char`.
  The C string held by a buffer is the part before the first NUL (`cstr`).
* A `FILE *` opened for reading is the list of bytes not yet read.
* Calls into other modules and libraries (gnutls, glib, libc, the OTP layer, the
  scan engine) are not re-implemented: what they return is an input of the model
  (a field of an environment record), and the call itself is recorded as an `Event`.
* A function that may call `exit` yields a `Run`: the events it performed, in
  order, and the exit status when the process exited.
-/

namespace Openvassd

/-! ## C strings and `fgets` -/

/-- The NUL byte that ends a C string. -/
def NUL : Char := Char.ofNat 0

/-- The C string held by a buffer: the bytes before the first NUL. -/
def cstr (s : List Char) : List Char := s.takeWhile (fun c => c ≠ NUL)

/-- The reading loop of `fgets`: at most `k` further bytes are taken from the
stream, and reading stops right after a newline or at end of file. The result is
the bytes stored and the bytes left in the stream. -/
def fgets_read : Nat → List Char → List Char × List Char
  | 0, f => ([], f)
  | _ + 1, [] => ([], [])
  | k + 1, c :: f =>
    if c = '\n' then ([c], f)
    else (c :: (fgets_read k f).1, (fgets_read k f).2)

/-- The libc call `fgets (buf, size, f)`: `none` (NULL) at end of file, otherwise
the bytes stored in `buf` (at most `size - 1` of them) and the rest of the stream. -/
def fgets (size : Nat) (f : List Char) : Option (List Char × List Char) :=
  match f with
  | [] => none
  | _ :: _ => some (fgets_read (size - 1) f)

/-! ## `check_client` -/

/-- What the scanning loop of `check_client` leaves behind: the variable
`success`, the C string in `dnameref` (`none` while the buffer was never
written), and the part of the file that was not read. -/
structure ScanResult where
  success : Nat
  dnameref : Option (List Char)
  rest : List Char
deriving DecidableEq, Repr

/-- The loop `while (! success && fgets (dnameref, sizeof (dnameref) - 1, f) != NULL)`
of `check_client`, with `sizeof (dnameref) = 512`. Every turn reads at least one
byte, so `fuel = length of the file` turns are enough (`scan_fuel_irrelevant`);
with no fuel left the file is at its end and the loop leaves like on a NULL from
`fgets`. -/
def scan (dname : List Char) : Nat → Option (List Char) → List Char → ScanResult
  | 0, last, f => ⟨0, last, f⟩
  | fuel + 1, last, f =>
    match fgets (512 - 1) f with
    | none => ⟨0, last, f⟩
    | some (buf, rest) =>
      -- if ((p = strchr (dnameref, '\n')) != NULL) *p = '\0';
      -- if (strcmp (dname, dnameref) == 0) success = 1;
      if cstr dname = (cstr buf).takeWhile (fun c => c ≠ '\n') then
        ⟨1, some ((cstr buf).takeWhile (fun c => c ≠ '\n')), rest⟩
      else
        scan dname fuel (some ((cstr buf).takeWhile (fun c => c ≠ '\n'))) rest

/-- The function `check_client (char *dname)`. `dname = none` is the NULL pointer;
`file` is the content of `OPENVAS_STATE_DIR "/dname"`, or `none` when `fopen`
fails. The result is the returned `success`. -/
def check_client (dname : Option (List Char)) (file : Option (List Char)) : Nat :=
  match dname with
  | none => 0
  | some d =>
    if cstr d = [] then 0
    else
      match file with
      | none => 0
      | some content => (scan d content.length none content).success

/-- The unread part of the allow-list file when `check_client` closes it. -/
def check_client_unread (d : List Char) (content : List Char) : List Char :=
  (scan d content.length none content).rest

/-- The newline-separated entries of a file content, in file order (the wording of
the specification; not taken from the code). -/
def entries : List Char → List (List Char)
  | [] => [[]]
  | c :: cs =>
    if c = '\n' then [] :: entries cs
    else
      match entries cs with
      | [] => [[c]]
      | e :: es => (c :: e) :: es

/-! ## Argument lists and preferences -/

/-- A `struct arglist` holding string values: name/value pairs in list order. -/
abbrev arglist := List (String × String)

/-- The library call `arg_get_value (list, name)`: the value of the first element
called `name`, or `none` (NULL) when there is none. -/
def arg_get_value (l : arglist) (name : String) : Option String :=
  match l with
  | [] => none
  | (n, v) :: t => if n = name then some v else arg_get_value t name

/-- The globals `global_max_hosts`, `global_max_checks` and `global_preferences`. -/
structure Globals where
  global_max_hosts : Int
  global_max_checks : Int
  global_preferences : arglist
deriving DecidableEq, Repr

/-- The initial values of the globals (`int global_max_hosts = 15;` and
`int global_max_checks = 10;`, no preferences yet). -/
def Globals.initial : Globals := ⟨15, 10, []⟩

/-- The function `set_globals_from_preferences (prefs)`, as a state update of the
globals. The libc function `atoi` is a parameter. -/
def set_globals_from_preferences (atoi : String → Int) (prefs : arglist)
    (g : Globals) : Globals :=
  let hosts :=
    match arg_get_value prefs "max_hosts" with
    | some str => if atoi str ≤ 0 then 15 else atoi str
    | none => g.global_max_hosts
  let checks :=
    match arg_get_value prefs "max_checks" with
    | some str => if atoi str ≤ 0 then 10 else atoi str
    | none => g.global_max_checks
  ⟨hosts, checks, prefs⟩

/-- The white space `isspace` accepts in the C locale: space, and the control
characters from horizontal tab (9) to carriage return (13). -/
def isspace (c : Char) : Bool := c = ' ' || (9 ≤ c.toNat && c.toNat ≤ 13)

/-- The libc function `atoi`, as glibc computes it on a platform with 64-bit
`long` and 32-bit `int`, `(int) strtol (s, NULL, 10)`: leading white space is
skipped, an optional sign is read, then the decimal digits that follow (0 without
digits); `strtol` saturates at the range of `long`, and the conversion to `int`
keeps the low 32 bits (two-complement). The embedded functions take `atoi` as
a parameter; this definition is the instance used in the examples. -/
def atoi_libc (s : String) : Int :=
  let cs := s.toList.dropWhile isspace
  let negative : Bool :=
    match cs with
    | '-' :: _ => true
    | _ => false
  let digits : List Char :=
    match cs with
    | '-' :: t => t
    | '+' :: t => t
    | t => t
  let n : Nat := (digits.takeWhile Char.isDigit).foldl
    (fun (n : Nat) (c : Char) => 10 * n + (c.toNat - 48)) 0
  let v : Int := if negative then -(n : Int) else (n : Int)
  let long : Int := max (-(2 : Int) ^ 63) (min v ((2 : Int) ^ 63 - 1))
  (long + 2 ^ 31) % 2 ^ 32 - 2 ^ 31

/-! ## Events and runs -/

/-- The encapsulation codes `OPENVAS_ENCAPS_SSLv23`, `OPENVAS_ENCAPS_SSLv3` and
`OPENVAS_ENCAPS_TLSv1` that `ssl_ver_to_encaps` can return. -/
inductive Encaps where
  | SSLv23
  | SSLv3
  | TLSv1
deriving DecidableEq, Repr

/-- The arguments of `ovas_scanner_context_new`, in the order of the call. -/
structure CtxArgs where
  encaps : Encaps
  cert : String
  key : String
  passwd : Option String
  ca_file : String
  force_pubkey_auth : Bool
deriving DecidableEq, Repr

/-- The calls into other modules, libraries and the system that the embedded
functions make. A constructor carries the arguments that matter. -/
inductive Event where
  | proctitle_init
  | proctitle_set
  | nice (incr : Int)
  | log_write (msg : String)
  | printf (msg : String)
  | g_print (msg : String)
  | fprintf_stderr (msg : String)
  | openvas_signal (signal : String)
  | close (fd : Int)
  | shutdown (fd : Int)
  | setsid
  | open_file (path : String)
  | dup2 (fd target : Int)
  | fflush
  | setlinebuf
  | ovas_scanner_context_attach (soc : Int)
  | setsockopt (soc : Int)
  | arg_set_value_global_socket (soc2 : Int)
  | comm_init (soc2 : Int)
  | close_stream_connection (fd : Int)
  | gnutls_certificate_type_get
  | gnutls_certificate_get_peers
  | gnutls_x509_crt_import
  | gnutls_x509_crt_get_dn
  | check_client (dname : List Char) (result : Nat)
  | auth_printf (msg : String)
  | arg_set_value_plugins
  | comm_send_nvt_info
  | comm_send_preferences
  | ntp_1x_send_dependencies
  | comm_wait_order
  | preferences_reset_cache
  | ntp_1x_timestamp_scan_starts
  | attack_network
  | ntp_1x_timestamp_scan_ends
  | comm_terminate
  | make_em_die (signal : String)
  | openvas_SSL_init
  | ovas_scanner_context_new (args : CtxArgs)
  | g_option_context_parse
  | setenv_TZ
  | tzset
  | getaddrinfo (address : String)
  | freeaddrinfo
  | arg_add_value_acc_hint
  | bpf_server
  | arg_add_value_scanner_port (port : Int)
  | arg_add_value_config_file (path : String)
  | arg_add_value_addr
  | preferences_init (path : String)
  | log_init
  | setup_legacy_log_handler
  | socket
  | bind (port : Int)
  | listen (backlog : Int)
  | arg_replace_value_isck (isck : Int)
  | arg_replace_value_preferences
  | set_globals_from_preferences
deriving Repr

/-- The events a function performed, in order, and the status it passed to `exit`;
`none` when it returned to its caller (or, for a bounded observation, is still
running). -/
structure Run where
  events : List Event
  exit : Option Int
deriving Repr

/-! ## The session: `start_daemon_mode`, `end_daemon_mode`, `scanner_thread` -/

/-- What the calls made by one session return. These are inputs of the model. -/
structure SessionEnv where
  /-- The value of `preferences` in `globals`. -/
  prefs : arglist
  /-- The global `global_preferences`. -/
  global_preferences : arglist
  /-- The global `global_iana_socket`. -/
  global_iana_socket : Int
  /-- The value of `global_socket` in `globals`: the accepted socket. -/
  soc : Int
  /-- Result of `preferences_benice (prefs)`. -/
  benice : Bool
  /-- Whether `nice (10)` returned -1 with `errno` set. -/
  nice_fails : Bool
  /-- Result of `ovas_scanner_context_attach`: the stream `soc2`. -/
  attach : Int
  /-- Result of `comm_init (soc2)`: the protocol version, 0 on timeout. -/
  comm_init : Int
  /-- Whether `gnutls_certificate_type_get` returned `GNUTLS_CRT_X509`. -/
  cert_type_x509 : Bool
  /-- The `cert_list_size` set by `gnutls_certificate_get_peers`. -/
  cert_list_size : Nat
  /-- Result of `gnutls_x509_crt_import`. -/
  crt_import : Int
  /-- Result of `gnutls_x509_crt_get_dn`. -/
  crt_get_dn : Int
  /-- The bytes `gnutls_x509_crt_get_dn` stored in `x509_dname`. -/
  peer_dn : List Char
  /-- The allow-list file when `check_client` opens it; `none`: `fopen` fails. -/
  dname_file : Option (List Char)
  /-- The constant `OTP_20` of `otp.h`. -/
  OTP_20 : Int
  /-- Result of `setsid ()`. -/
  setsid : Int
  /-- Result of `open ("/dev/tty", O_RDWR)`. -/
  tty_fd : Int
  /-- Result of `open ("/dev/null", O_RDONLY)`. -/
  null_fd : Int
  /-- Result of `open` on the dump file. -/
  dump_fd : Int
  /-- The constant `OPENVASSD_DEBUGMSG`. -/
  OPENVASSD_DEBUGMSG : String

/-- The function `start_daemon_mode ()`. -/
def start_daemon_mode (e : SessionEnv) : Run :=
  let t0 : List Event :=
    [Event.close e.global_iana_socket, Event.setsid]
      ++ (if e.setsid < 0 then
            [Event.log_write "Warning: Cannot set process group leader"] else [])
      ++ [Event.open_file "/dev/tty"]
      ++ (if e.tty_fd ≥ 0 then [Event.close e.tty_fd] else [])
      ++ [Event.open_file "/dev/null"]
  if e.null_fd < 0 then
    ⟨t0 ++ [Event.log_write "Cannot open /dev/null -- aborting"], some 0⟩
  else
    let t1 := t0 ++ [Event.dup2 e.null_fd 0, Event.close e.null_fd]
    let s :=
      match arg_get_value e.global_preferences "dumpfile" with
      | some v => v
      | none => e.OPENVASSD_DEBUGMSG
    if s = "-" then ⟨t1, none⟩
    else
      let t2 := t1 ++ [Event.fflush, Event.fflush, Event.open_file s]
      if e.dump_fd < 0 then
        ⟨t2 ++ [Event.log_write "Cannot create a new dumpfile -- aborting"], some 2⟩
      else
        ⟨t2 ++ [Event.dup2 e.dump_fd 1, Event.dup2 e.dump_fd 2, Event.close e.dump_fd,
                Event.setlinebuf, Event.setlinebuf], none⟩

/-- The function `end_daemon_mode ()`: all processes of the group are terminated. -/
def end_daemon_mode : List Event := [Event.make_em_die "SIGTERM"]

/-- The label `shutdown_and_exit` of `scanner_thread`, reached with the events
`before` already performed and the given value of `soc2`. -/
def shutdown_and_exit (e : SessionEnv) (soc2 : Int) (before : List Event) : Run :=
  ⟨before
    ++ (if soc2 ≥ 0 then [Event.close_stream_connection soc2]
        else [Event.shutdown e.soc, Event.close e.soc])
    ++ end_daemon_mode, some 0⟩

/-- The calls of one pass from the label `wait` to `comm_terminate`. -/
def serve_once : List Event :=
  [Event.comm_wait_order, Event.preferences_reset_cache,
   Event.ntp_1x_timestamp_scan_starts, Event.attack_network,
   Event.ntp_1x_timestamp_scan_ends, Event.comm_terminate]

/-- The serving part of `scanner_thread` from the label `wait` on, observed for at
most `rounds` passes. With `ntp_keep_communication_alive` set the code jumps back
to `wait` without end, so a run observed for a bounded number of passes has no
exit status; otherwise the first pass falls through to `shutdown_and_exit`. -/
def wait_loop (e : SessionEnv) : Nat → Run
  | 0 => ⟨[], none⟩
  | n + 1 =>
    if (arg_get_value e.prefs "ntp_keep_communication_alive").isSome then
      ⟨serve_once ++ [Event.log_write "Kept alive connection"] ++ (wait_loop e n).events,
        (wait_loop e n).exit⟩
    else
      shutdown_and_exit e e.attach serve_once

/-- The part of `scanner_thread` from `if (! check_client (x509_dname))` on,
reached with the events `before` already performed and the given content of the
buffer `x509_dname`. -/
def scanner_thread_login (e : SessionEnv) (rounds : Nat) (before : List Event)
    (x509_dname : List Char) : Run :=
  let t4 := before
    ++ [Event.check_client x509_dname (check_client (some x509_dname) e.dname_file)]
  if check_client (some x509_dname) e.dname_file = 0 then
    shutdown_and_exit e e.attach
      (t4 ++ [Event.auth_printf "Bad login attempt !",
              Event.log_write "bad login attempt from"])
  else
    -- OTP 2.0 sends all plugins and other information at connect
    let t5 := t4 ++ [Event.arg_set_value_plugins]
      ++ (if e.comm_init = e.OTP_20 then
            [Event.comm_send_nvt_info, Event.comm_send_preferences,
             Event.ntp_1x_send_dependencies]
          else [])
    match (start_daemon_mode e).exit with
    | some code => ⟨t5 ++ (start_daemon_mode e).events, some code⟩
    | none =>
      ⟨t5 ++ (start_daemon_mode e).events ++ (wait_loop e rounds).events,
        (wait_loop e rounds).exit⟩

/-- The function `scanner_thread (globals)`, run for one accepted connection and
observed for at most `rounds` passes through the label `wait`. The texts of the
process title and of the peer address and the calls that manage memory are left
out; the other calls are recorded in program order. -/
def scanner_thread (e : SessionEnv) (rounds : Nat) : Run :=
  let t0 : List Event :=
    [Event.proctitle_set]
      ++ (if e.benice then
            Event.nice 10 ::
              (if e.nice_fails then [Event.log_write "Unable to renice process"] else [])
          else [])
      ++ [Event.openvas_signal "SIGCHLD", Event.close e.global_iana_socket,
          Event.ovas_scanner_context_attach e.soc]
  if e.attach < 0 then shutdown_and_exit e e.attach t0
  else
    let t1 := t0 ++ [Event.setsockopt e.soc, Event.arg_set_value_global_socket e.attach,
                     Event.comm_init e.attach]
    if e.comm_init = 0 then
      ⟨t1 ++ [Event.log_write "New connection timeout -- closing the socket",
              Event.close_stream_connection e.soc], some 0⟩
    else
      -- Get X.509 cert subject name
      let t2 := t1 ++ [Event.gnutls_certificate_type_get]
      if e.cert_type_x509 = false then
        shutdown_and_exit e e.attach
          (t2 ++ [Event.log_write "Certificate is not an X.509 certificate."])
      else
        let t3 := t2 ++ [Event.gnutls_certificate_get_peers]
        if 0 < e.cert_list_size then
          if e.crt_import < 0 then
            shutdown_and_exit e e.attach
              (t3 ++ [Event.gnutls_x509_crt_import,
                      Event.log_write "certificate decoding error"])
          else if e.crt_get_dn < 0 then
            shutdown_and_exit e e.attach
              (t3 ++ [Event.gnutls_x509_crt_import, Event.gnutls_x509_crt_get_dn,
                      Event.log_write "couldn't get subject from certificate"])
          else
            scanner_thread_login e rounds
              (t3 ++ [Event.gnutls_x509_crt_import, Event.gnutls_x509_crt_get_dn]) e.peer_dn
        else
          -- the buffer still holds the empty string set by *x509_dname = 0
          scanner_thread_login e rounds t3 []

/-- The session gets as far as the call of `check_client`: the TLS stream was
attached, the protocol opening did not time out, the certificate type is X.509,
and a presented certificate was decoded and its subject read. -/
def reaches_login (e : SessionEnv) : Prop :=
  0 ≤ e.attach ∧ e.comm_init ≠ 0 ∧ e.cert_type_x509 = true ∧
    (0 < e.cert_list_size → 0 ≤ e.crt_import ∧ 0 ≤ e.crt_get_dn)

instance (e : SessionEnv) : Decidable (reaches_login e) := by
  unfold reaches_login
  infer_instance

/-- The content of the buffer `x509_dname` when `check_client` is called: the
subject of the first peer certificate, or the empty string without certificate. -/
def x509_dname (e : SessionEnv) : List Char :=
  if 0 < e.cert_list_size then e.peer_dn else []

/-- The calls that push the scan metadata to the client. -/
def Event.is_push : Event → Bool
  | Event.comm_send_nvt_info => true
  | Event.comm_send_preferences => true
  | Event.ntp_1x_send_dependencies => true
  | _ => false

/-- The calls that serve an authenticated client: the metadata push, the wait for
a scan order and the scan engine. -/
def Event.is_serving : Event → Bool
  | Event.comm_wait_order => true
  | Event.attack_network => true
  | ev => ev.is_push

/-- The calls of `check_client`. -/
def Event.is_check_client : Event → Bool
  | Event.check_client _ _ => true
  | _ => false

/-- The calls of `scanner_thread` before the protocol opening `comm_init`: up to
the TLS attach and the two calls on the sockets that follow it. -/
def session_opening (e : SessionEnv) : List Event :=
  [Event.proctitle_set]
    ++ (if e.benice then
          Event.nice 10 ::
            (if e.nice_fails then [Event.log_write "Unable to renice process"] else [])
        else [])
    ++ [Event.openvas_signal "SIGCHLD", Event.close e.global_iana_socket,
        Event.ovas_scanner_context_attach e.soc]
    ++ [Event.setsockopt e.soc, Event.arg_set_value_global_socket e.attach]

/-- The gnutls calls of `scanner_thread` that read the peer certificate, when the
session gets through them: the certificate type, the list of peer certificates
and, with a certificate presented, its import and the reading of its subject. -/
def session_dn_calls (e : SessionEnv) : List Event :=
  [Event.gnutls_certificate_type_get, Event.gnutls_certificate_get_peers]
    ++ (if 0 < e.cert_list_size then
          [Event.gnutls_x509_crt_import, Event.gnutls_x509_crt_get_dn]
        else [])

/-- The gnutls calls that read the peer certificate and its subject DN. -/
def Event.is_dn_extraction : Event → Bool
  | Event.gnutls_certificate_type_get => true
  | Event.gnutls_certificate_get_peers => true
  | Event.gnutls_x509_crt_import => true
  | Event.gnutls_x509_crt_get_dn => true
  | _ => false

/-- A session for illustration: the client presents an X.509 certificate with
subject `CN=admin`, the allow-list holds `CN=admin`, and the client opens with the
protocol code taken for `OTP_20`. -/
def session_listed : SessionEnv where
  prefs := []
  global_preferences := [("dumpfile", "-")]
  global_iana_socket := 3
  soc := 4
  benice := false
  nice_fails := false
  attach := 5
  comm_init := 20
  cert_type_x509 := true
  cert_list_size := 1
  crt_import := 0
  crt_get_dn := 0
  peer_dn := "CN=admin".toList
  dname_file := some "CN=admin\n".toList
  OTP_20 := 20
  setsid := 0
  tty_fd := -1
  null_fd := 6
  dump_fd := 7
  OPENVASSD_DEBUGMSG := "openvassd.dump"

/-- The same session with a client that presents no certificate. -/
def session_no_cert : SessionEnv := { session_listed with cert_list_size := 0 }

/-- The same session with a certificate whose subject is not in the allow-list. -/
def session_unlisted : SessionEnv := { session_listed with peer_dn := "CN=eve".toList }

/-- The same session with a client that opens with another protocol code. -/
def session_modern : SessionEnv := { session_listed with comm_init := 21 }

/-! ## The TLS context: `ssl_ver_to_encaps`, `init_ssl_ctx` -/

/-- The test `strcasecmp (a, b) == 0`. -/
def strcasecmp_eq (a b : String) : Bool :=
  a.toList.map Char.toLower = b.toList.map Char.toLower

/-- The function `ssl_ver_to_encaps (ssl_ver)`: the code returned and what was
written to stderr. `none` is the NULL pointer. -/
def ssl_ver_to_encaps (ssl_ver : Option String) : Encaps × List Event :=
  match ssl_ver with
  | none => (Encaps.TLSv1, [])
  | some v =>
    if strcasecmp_eq v "SSLv2" then
      (Encaps.TLSv1, [Event.fprintf_stderr "SSL version 2 is not supported anymore!"])
    else if strcasecmp_eq v "SSLv3" then (Encaps.SSLv3, [])
    else if strcasecmp_eq v "SSLv23" then (Encaps.SSLv23, [])
    else if strcasecmp_eq v "TLSv1" then (Encaps.TLSv1, [])
    else (Encaps.TLSv1, [Event.fprintf_stderr "Unknown SSL version"])

/-- What the calls made by `init_ssl_ctx` return. -/
structure SslEnv where
  /-- Result of `openvas_SSL_init ()`. -/
  openvas_SSL_init : Int
  /-- The function `preferences_get_string` of the preferences module. -/
  preferences_get_string : arglist → String → Option String
  /-- The constructor `ovas_scanner_context_new`; `none` is NULL. -/
  ovas_scanner_context_new : CtxArgs → Option Nat

/-- The outcome of `init_ssl_ctx`: its run and the static `ovas_scanner_ctx`
afterwards. -/
structure SslRun where
  run : Run
  ovas_scanner_ctx : Option Nat
deriving Repr

/-- The function `init_ssl_ctx ()`, from the globals `global_preferences` and
`ovas_scanner_ctx` (`none` is NULL). -/
def init_ssl_ctx (e : SslEnv) (global_preferences : arglist)
    (ovas_scanner_ctx : Option Nat) : SslRun :=
  if e.openvas_SSL_init < 0 then
    ⟨⟨[Event.openvas_SSL_init, Event.fprintf_stderr "Could not initialize openvas SSL!"],
      some 1⟩, ovas_scanner_ctx⟩
  else
    match ovas_scanner_ctx with
    | some ctx => ⟨⟨[Event.openvas_SSL_init], none⟩, some ctx⟩
    | none =>
      let ssl_ver : String :=
        match e.preferences_get_string global_preferences "ssl_version" with
        | none => "TLSv1"
        | some v => if v = "" then "TLSv1" else v
      let encaps := ssl_ver_to_encaps (some ssl_ver)
      let t0 := Event.openvas_SSL_init :: encaps.2
      match e.preferences_get_string global_preferences "ca_file" with
      | none =>
        ⟨⟨t0 ++ [Event.fprintf_stderr "Missing ca_file - Did you run openvas-mkcert?"],
          some 1⟩, none⟩
      | some ca_file =>
        match e.preferences_get_string global_preferences "cert_file" with
        | none =>
          ⟨⟨t0 ++ [Event.fprintf_stderr "Missing cert_file - Did you run openvas-mkcert?"],
            some 1⟩, none⟩
        | some cert =>
          match e.preferences_get_string global_preferences "key_file" with
          | none =>
            ⟨⟨t0 ++ [Event.fprintf_stderr "Missing key_file - Did you run openvas-mkcert?"],
              some 1⟩, none⟩
          | some key =>
            let passwd := e.preferences_get_string global_preferences "pem_password"
            -- force_pubkey_auth = str != NULL && strcmp (str, "no") != 0;
            let force_pubkey_auth : Bool :=
              match arg_get_value global_preferences "force_pubkey_auth" with
              | none => false
              | some str => str ≠ "no"
            let args : CtxArgs := ⟨encaps.1, cert, key, passwd, ca_file, force_pubkey_auth⟩
            match e.ovas_scanner_context_new args with
            | none =>
              ⟨⟨t0 ++ [Event.ovas_scanner_context_new args,
                       Event.fprintf_stderr "Could not create ovas_scanner_ctx"],
                some 1⟩, none⟩
            | some ctx => ⟨⟨t0 ++ [Event.ovas_scanner_context_new args], none⟩, some ctx⟩

/-! ## Startup: `init_network`, `init_openvassd`, `main` -/

/-- The command line as `g_option_context_parse` leaves it in the option
variables of `main`; `none` is a NULL string. -/
structure CmdLine where
  /-- Result of `g_option_context_parse`: false on a parse error. -/
  parse_ok : Bool
  display_version : Bool
  dont_fork : Bool
  address : Option String
  port : Option String
  config_file : Option String
  print_specs : Bool
  print_sysconfdir : Bool
  only_cache : Bool

/-- What the library and system calls of the startup return. -/
structure MainEnv where
  /-- Result of `setenv ("TZ", "utc 0", 1)`. -/
  setenv : Int
  /-- Result of `getaddrinfo` with `AI_NUMERICHOST` for an address; 0 on success. -/
  getaddrinfo : String → Int
  /-- The libc function `atoi`. -/
  atoi : String → Int
  /-- Result of `socket ()`. -/
  socket : Int
  /-- Result of `bind ()`. -/
  bind : Int
  /-- Result of `listen ()`. -/
  listen : Int
  /-- The constant `SYSCONFDIR`. -/
  SYSCONFDIR : String
  /-- The constant `OPENVASSD_CONF`. -/
  OPENVASSD_CONF : String

/-- The function `init_network (port, sock, addr)`. -/
def init_network (e : MainEnv) (port : Int) : Run :=
  if e.socket = -1 then
    ⟨[Event.socket, Event.log_write "socket(AF_INET)", Event.fprintf_stderr "socket() failed"],
      some 1⟩
  else if e.bind = -1 then
    ⟨[Event.socket, Event.setsockopt e.socket, Event.bind port,
      Event.fprintf_stderr "bind() failed"], some 1⟩
  else if e.listen = -1 then
    ⟨[Event.socket, Event.setsockopt e.socket, Event.bind port, Event.listen 10,
      Event.fprintf_stderr "listen() failed", Event.shutdown e.socket, Event.close e.socket],
      some 1⟩
  else
    ⟨[Event.socket, Event.setsockopt e.socket, Event.bind port, Event.listen 10], none⟩

/-- The function `init_openvassd (options, first_pass, stop_early, dont_fork)`, with
`scanner_port` and `config_file` as read from `options`. -/
def init_openvassd (e : MainEnv) (scanner_port : Int) (config_file : String)
    (first_pass stop_early : Int) (dont_fork : Bool) : Run :=
  let t0 : List Event :=
    [Event.preferences_init config_file, Event.log_init]
      ++ (if dont_fork = false then [Event.setup_legacy_log_handler] else [])
  let net : Run :=
    if stop_early = 0 ∧ first_pass ≠ 0 then init_network e scanner_port else ⟨[], none⟩
  match net.exit with
  | some code => ⟨t0 ++ net.events, some code⟩
  | none =>
    ⟨t0 ++ net.events
      ++ (if first_pass ≠ 0 ∧ stop_early = 0 then
            [Event.openvas_signal "SIGSEGV", Event.openvas_signal "SIGCHLD",
             Event.openvas_signal "SIGTERM", Event.openvas_signal "SIGINT",
             Event.openvas_signal "SIGHUP", Event.openvas_signal "SIGUSR1",
             Event.openvas_signal "SIGPIPE"]
          else [])
      ++ [Event.arg_replace_value_isck
            (if stop_early = 0 ∧ first_pass ≠ 0 then e.socket else -1),
          Event.arg_replace_value_preferences, Event.set_globals_from_preferences],
      none⟩

/-- The function `main`, from its start through the call of `init_openvassd`
(the part that reads the command line and opens the listening socket). The exit
status is `none` when `main` goes on to what follows that call: the special
treatment of `--cfg-specs` and `--only-cache`, and the daemon mode. -/
def main (c : CmdLine) (e : MainEnv) : Run :=
  let t0 : List Event := [Event.proctitle_init, Event.g_option_context_parse]
  if c.parse_ok = false then ⟨t0 ++ [Event.g_print "error->message"], some 0⟩
  else if c.print_sysconfdir then ⟨t0 ++ [Event.g_print e.SYSCONFDIR], some 0⟩
  else if e.setenv = -1 then
    ⟨t0 ++ [Event.setenv_TZ, Event.g_print "strerror (errno)"], some 0⟩
  else
    let t1 := t0 ++ [Event.setenv_TZ, Event.tzset]
    let exit_early : Int := if c.print_specs then 2 else 0
    let bad_address : Bool :=
      match c.address with
      | some a => e.getaddrinfo a ≠ 0
      | none => false
    let t2 := t1 ++
      (match c.address with
       | some a => [Event.getaddrinfo a]
       | none => [])
    if bad_address then
      ⟨t2 ++ [Event.printf "Invalid IP address.",
              Event.printf "Please use --help for more information."], some 0⟩
    else
      let t3 := t2 ++
        (match c.address with
         | some _ => [Event.freeaddrinfo]
         | none => [])
      let scanner_port : Int :=
        match c.port with
        | some p => e.atoi p
        | none => 9391
      if c.port.isSome ∧ (scanner_port ≤ 0 ∨ scanner_port ≥ 65536) then
        ⟨t3 ++ [Event.printf "Invalid port specification.",
                Event.printf "Please use --help for more information."], some 1⟩
      else if c.display_version then
        ⟨t3 ++ [Event.printf "OpenVAS Scanner"], some 0⟩
      else
        let config_file : String :=
          match c.config_file with
          | some f => f
          | none => e.OPENVASSD_CONF
        let t4 := t3
          ++ (if c.config_file.isSome then [Event.arg_add_value_acc_hint] else [])
          ++ (if exit_early = 0 then [Event.bpf_server] else [])
          ++ [Event.arg_add_value_scanner_port scanner_port,
              Event.arg_add_value_config_file config_file, Event.arg_add_value_addr]
        ⟨t4 ++ (init_openvassd e scanner_port config_file 1 exit_early c.dont_fork).events,
          (init_openvassd e scanner_port config_file 1 exit_early c.dont_fork).exit⟩

/-- The calls of the startup that create or bind a socket: `bpf_server` and the
`socket`, `bind` and `listen` of `init_network`. -/
def Event.is_network : Event → Bool
  | Event.bpf_server => true
  | Event.socket => true
  | Event.bind _ => true
  | Event.listen _ => true
  | _ => false

/-- The startup gets as far as the check of `--port`: the command line was parsed,
`--sysconfdir` was not given, `setenv` succeeded, and the address given with
`--listen`, if any, was accepted by `getaddrinfo`. -/
def reaches_port_check (c : CmdLine) (e : MainEnv) : Prop :=
  c.parse_ok = true ∧ c.print_sysconfdir = false ∧ e.setenv ≠ -1 ∧
    match c.address with
    | some a => e.getaddrinfo a = 0
    | none => True

instance (c : CmdLine) (e : MainEnv) : Decidable (reaches_port_check c e) := by
  unfold reaches_port_check
  cases c.address <;> infer_instance

/-- A startup environment for illustration: every call succeeds. -/
def env_ok : MainEnv where
  setenv := 0
  getaddrinfo := fun _ => 0
  atoi := atoi_libc
  socket := 3
  bind := 0
  listen := 0
  SYSCONFDIR := "/etc"
  OPENVASSD_CONF := "/etc/openvas/openvassd.conf"

/-- The command line `openvassd --port=<p>`, or `openvassd` alone. -/
def cmdline_port (p : Option String) : CmdLine where
  parse_ok := true
  display_version := false
  dont_fork := false
  address := none
  port := p
  config_file := none
  print_specs := false
  print_sysconfdir := false
  only_cache := false

/-- The command line `openvassd --sysconfdir --port=0`. -/
def cmdline_sysconfdir_port0 : CmdLine :=
  { cmdline_port (some "0") with print_sysconfdir := true }

/-- An environment of `init_ssl_ctx` for illustration: the library initialises,
string preferences are read with `arg_get_value`, the constructor succeeds. -/
def ssl_env_ok : SslEnv where
  openvas_SSL_init := 0
  preferences_get_string := arg_get_value
  ovas_scanner_context_new := fun _ => some 1

/-- Preferences that name the three credential files and nothing else. -/
def prefs_credentials : arglist :=
  [("ca_file", "ca.pem"), ("cert_file", "cert.pem"), ("key_file", "key.pem")]

/-! ## The listener: `sighup`, `reload_openvassd`, the loop of `main_loop` -/

/-- What the listener process does on a hang-up signal: run the handler `sighup`,
or ignore the signal (`SIG_IGN`). -/
inductive SighupAction where
  | handler
  | ignore
deriving DecidableEq, Repr

/-- The calls the listener process makes in `reload_openvassd` and in the loop of
`main_loop`. -/
inductive ListenerEvent where
  | proctitle_set (title : String)
  | log_write (msg : String)
  | openvas_signal_SIGHUP (action : SighupAction)
  | preferences_init (config_file : Option String)
  | plugins_init
  | plugins_free (plugins : Nat)
  | wait_for_children1
  | accept (inet : Bool)
  | inet_ntop (inet : Bool)
  | arg_add_value (name : String)
  | create_process
  | sleep (seconds : Nat)
  | close (fd : Int)
  | arg_free
deriving DecidableEq, Repr

/-- The events of a listener run, in order, and the status passed to `exit`; `none`
while the loop goes on. -/
structure ListenerRun where
  events : List ListenerEvent
  exit : Option Int
deriving DecidableEq, Repr

/-- The state of the listener process that reload touches: the static flag
`restart`, the installed action for SIGHUP, the globals set from the preferences,
and the global `global_plugins` (a handle). -/
structure Listener where
  restart : Int
  sighup_action : SighupAction
  globals : Globals
  global_plugins : Nat
deriving DecidableEq, Repr

/-- The state in which the loop is entered when no hang-up has arrived yet:
`static int restart = 0`, and `init_openvassd` has installed `sighup`. -/
def Listener.initial (g : Globals) (plugins : Nat) : Listener :=
  ⟨0, SighupAction.handler, g, plugins⟩

/-- The signal handler `sighup (int i)`: it sets `restart = 1`. -/
def sighup (s : Listener) : Listener := { s with restart := 1 }

/-- The delivery of one hang-up signal to the listener process. -/
def deliver_SIGHUP (s : Listener) : Listener :=
  match s.sighup_action with
  | SighupAction.handler => sighup s
  | SighupAction.ignore => s

/-- The delivery of `k` hang-up signals, one after the other. -/
def deliver_SIGHUPs : Nat → Listener → Listener
  | 0, s => s
  | k + 1, s => deliver_SIGHUPs k (deliver_SIGHUP s)

/-- What the calls of one turn of the listener loop return, and the hang-up signals
that arrive during it. -/
structure LoopEnv where
  /-- Hang-ups delivered at the top of the turn, before the test of `restart`. -/
  sighups_before : Nat
  /-- Hang-ups delivered during a reload before `reload_openvassd` sets the action
  for SIGHUP to `SIG_IGN`. -/
  sighups_reload_start : Nat
  /-- Hang-ups delivered during a reload while SIGHUP is ignored. -/
  sighups_reload_ignored : Nat
  /-- Hang-ups delivered during the rest of the turn, after the test of `restart`
  and the reload, if any. -/
  sighups_after : Nat
  /-- Whether `ai->ai_family == AF_INET`. -/
  ai_family_inet : Bool
  /-- Result of `accept ()`: the connection socket, or -1. -/
  accept : Int
  /-- Whether `inet_ntop` returned NULL. -/
  inet_ntop_null : Bool
  /-- Result of `create_process ()`. -/
  create_process : Int
  /-- The preferences `preferences_init` reads from a configuration file. -/
  preferences_init : Option String → arglist
  /-- Result of `plugins_init (preferences)`: the handle of the new plugins. -/
  plugins_init : arglist → Nat
  /-- The libc function `atoi`. -/
  atoi : String → Int

/-- The function `reload_openvassd ()`: its calls and the state it leaves. Hang-up
signals that arrive before its call `openvas_signal (SIGHUP, SIG_IGN)` run the
handler, those that arrive after it are ignored; the function ends with
`restart = 0` and the handler installed again. -/
def reload_openvassd (e : LoopEnv) (s : Listener) : List ListenerEvent × Listener :=
  let s1 := deliver_SIGHUPs e.sighups_reload_start s
  let s2 := deliver_SIGHUPs e.sighups_reload_ignored
    { s1 with sighup_action := SighupAction.ignore }
  let config_file := arg_get_value s2.globals.global_preferences "config_file"
  let preferences := e.preferences_init config_file
  let plugins := e.plugins_init preferences
  ([ListenerEvent.log_write "Reloading the scanner.",
    ListenerEvent.openvas_signal_SIGHUP SighupAction.ignore,
    ListenerEvent.preferences_init config_file,
    ListenerEvent.plugins_init,
    ListenerEvent.plugins_free s2.global_plugins,
    ListenerEvent.log_write "Finished reloading the scanner.",
    ListenerEvent.openvas_signal_SIGHUP SighupAction.handler],
   { restart := 0
     sighup_action := SighupAction.handler
     globals := set_globals_from_preferences e.atoi preferences s2.globals
     global_plugins := plugins })

/-- The checkpoint at the top of the loop of `main_loop`:
`if (restart != 0) { ...; reload_openvassd (); ... }`. -/
def main_loop_checkpoint (e : LoopEnv) (s : Listener) : List ListenerEvent × Listener :=
  if s.restart ≠ 0 then
    ([ListenerEvent.proctitle_set "openvassd: Reloading"]
        ++ (reload_openvassd e s).1
        ++ [ListenerEvent.proctitle_set "openvassd: Waiting for incoming connections"],
      (reload_openvassd e s).2)
  else ([], s)

/-- The rest of one turn of the loop of `main_loop`, from `wait_for_children1 ()`
to the end of the body. The exit status `none` stands for the next turn (a
`continue` or the end of the body). -/
def main_loop_accept (e : LoopEnv) : ListenerRun :=
  let t0 : List ListenerEvent :=
    [ListenerEvent.wait_for_children1, ListenerEvent.accept e.ai_family_inet]
  if e.accept = -1 then ⟨t0, none⟩
  else if e.inet_ntop_null then
    ⟨t0 ++ [ListenerEvent.inet_ntop e.ai_family_inet], some 0⟩
  else
    ⟨t0 ++ [ListenerEvent.inet_ntop e.ai_family_inet,
            ListenerEvent.arg_add_value "global_socket",
            ListenerEvent.arg_add_value "plugins",
            ListenerEvent.arg_add_value "preferences",
            ListenerEvent.arg_add_value "client_address",
            ListenerEvent.arg_add_value "family",
            ListenerEvent.create_process]
        ++ (if e.create_process < 0 then
              [ListenerEvent.log_write "Could not fork - client won't be served",
               ListenerEvent.sleep 2]
            else [])
        ++ [ListenerEvent.close e.accept, ListenerEvent.arg_free],
      none⟩

/-- The state of the listener at the end of one turn that began in state `s`. -/
def main_loop_next (e : LoopEnv) (s : Listener) : Listener :=
  deliver_SIGHUPs e.sighups_after
    (main_loop_checkpoint e (deliver_SIGHUPs e.sighups_before s)).2

/-- The loop `for (;;)` of `main_loop`, entered in state `s` and observed for the
turns whose environments are given, in order. The run ends at the first turn that
exits; the exit status is `none` when every given turn went on to the next. -/
def main_loop : List LoopEnv → Listener → ListenerRun × Listener
  | [], s => (⟨[], none⟩, s)
  | e :: es, s =>
    match (main_loop_accept e).exit with
    | some code =>
      (⟨(main_loop_checkpoint e (deliver_SIGHUPs e.sighups_before s)).1
          ++ (main_loop_accept e).events, some code⟩, main_loop_next e s)
    | none =>
      (⟨(main_loop_checkpoint e (deliver_SIGHUPs e.sighups_before s)).1
          ++ (main_loop_accept e).events
          ++ (main_loop es (main_loop_next e s)).1.events,
        (main_loop es (main_loop_next e s)).1.exit⟩,
       (main_loop es (main_loop_next e s)).2)

/-- A turn of the loop for illustration: a client connects and is served. -/
def loop_env_ok : LoopEnv where
  sighups_before := 0
  sighups_reload_start := 0
  sighups_reload_ignored := 0
  sighups_after := 0
  ai_family_inet := true
  accept := 8
  inet_ntop_null := false
  create_process := 1234
  preferences_init := fun _ => [("max_hosts", "30")]
  plugins_init := fun _ => 2
  atoi := atoi_libc

/-- The listener state for illustration: nothing pending, default tunables. -/
def listener_idle : Listener := Listener.initial Globals.initial 1

/-- The command line `openvassd --listen=<a>`. -/
def cmdline_listen (a : String) : CmdLine :=
  { cmdline_port none with address := some a }

/-- A startup environment in which `getaddrinfo` accepts only `127.0.0.1`. -/
def env_numeric_host : MainEnv :=
  { env_ok with getaddrinfo := fun a => if a = "127.0.0.1" then 0 else -2 }

/-! ## Lemmas on `entries`, `fgets` and the scanning loop -/

theorem entries_ne_nil (f : List Char) : entries f ≠ [] := by
  cases f with
  | nil => simp [entries]
  | cons c cs =>
    unfold entries
    split_ifs
    · simp
    · split <;> simp

theorem entries_cons_newline (cs : List Char) : entries ('\n' :: cs) = [] :: entries cs := by
  simp [entries]

theorem entries_cons_other (c : Char) (cs e : List Char) (es : List (List Char))
    (hc : c ≠ '\n') (h : entries cs = e :: es) : entries (c :: cs) = (c :: e) :: es := by
  rw [entries, if_neg hc, h]

theorem entries_head_no_newline (f e : List Char) (es : List (List Char))
    (h : entries f = e :: es) : '\n' ∉ e := by
  induction f generalizing e es with
  | nil =>
    simp [entries] at h
    obtain ⟨h1, _⟩ := h
    subst h1
    simp
  | cons c cs ih =>
    by_cases hc : c = '\n'
    · subst hc
      rw [entries_cons_newline] at h
      simp at h
      obtain ⟨h1, _⟩ := h
      subst h1
      simp
    · obtain ⟨e1, es1, h1⟩ := List.exists_cons_of_ne_nil (entries_ne_nil cs)
      rw [entries_cons_other c cs e1 es1 hc h1] at h
      simp at h
      rw [← h.1]
      have := ih e1 es1 h1
      simp
      exact ⟨fun h => hc h.symm, this⟩

/-- What one `fgets` reads from a file whose first line fits in the buffer. -/
theorem fgets_read_spec (f : List Char) : ∀ (k : Nat) (e : List Char) (es : List (List Char)),
    entries f = e :: es → e.length ≤ k →
    (fgets_read k f).1 ++ (fgets_read k f).2 = f ∧
    ((fgets_read k f).1 = e ∨ (fgets_read k f).1 = e ++ ['\n']) ∧
    (entries (fgets_read k f).2 = es ∨ entries (fgets_read k f).2 = [] :: es) := by
  induction f with
  | nil =>
    intro k e es h _
    simp [entries] at h
    cases k <;> simp [fgets_read, entries, ← h.1, ← h.2]
  | cons c cs ih =>
    intro k e es h hk
    by_cases hc : c = '\n'
    · subst hc
      rw [entries_cons_newline] at h
      simp at h
      cases k with
      | zero => simp [fgets_read, entries, ← h.1, ← h.2]
      | succ k => simp [fgets_read, ← h.1, ← h.2]
    · obtain ⟨e1, es1, h1⟩ := List.exists_cons_of_ne_nil (entries_ne_nil cs)
      rw [entries_cons_other c cs e1 es1 hc h1] at h
      simp at h
      obtain ⟨he, hes⟩ := h
      subst he
      subst hes
      cases k with
      | zero => simp at hk
      | succ k =>
        have hk1 : e1.length ≤ k := by simpa using hk
        obtain ⟨a1, a2, a3⟩ := ih k e1 es1 h1 hk1
        simp only [fgets_read, if_neg hc]
        refine ⟨by simp [a1], ?_, a3⟩
        rcases a2 with a2 | a2
        · left; simp [a2]
        · right; simp [a2]


theorem cstr_eq_self (s : List Char) (h : NUL ∉ s) : cstr s = s := by
  unfold cstr
  rw [List.takeWhile_eq_self_iff]
  intro x hx
  simp only [ne_eq, decide_eq_true_eq]
  intro hx2
  exact h (hx2 ▸ hx)

theorem takeWhile_line (e : List Char) (h : '\n' ∉ e) :
    e.takeWhile (fun c => c ≠ '\n') = e ∧
    (e ++ ['\n']).takeWhile (fun c => c ≠ '\n') = e := by
  induction e with
  | nil => simp
  | cons c cs ih =>
    simp at h
    have hc : c ≠ '\n' := fun hh => h.1 hh.symm
    obtain ⟨i1, i2⟩ := ih h.2
    constructor
    · rw [List.takeWhile_cons, i1]; simp [hc]
    · rw [List.cons_append, List.takeWhile_cons, i2]; simp [hc]

theorem scan_success_zero_or_one (dn : List Char) : ∀ (fuel : Nat) (last : Option (List Char))
    (f : List Char), (scan dn fuel last f).success = 0 ∨ (scan dn fuel last f).success = 1 := by
  intro fuel
  induction fuel with
  | zero => intro last f; simp [scan]
  | succ n ih =>
    intro last f
    unfold scan
    split
    · simp
    · split_ifs
      · simp
      · exact ih _ _

/-- The line that one turn of the loop compares with the DN, and what is left. -/
theorem fgets_turn (c : Char) (cs e : List Char) (es : List (List Char))
    (hnul : NUL ∉ c :: cs) (he : entries (c :: cs) = e :: es) (hlen : e.length ≤ 510) :
    ∃ buf rest, fgets (512 - 1) (c :: cs) = some (buf, rest) ∧
      (cstr buf).takeWhile (fun x => x ≠ '\n') = e ∧
      buf ++ rest = c :: cs ∧ buf ≠ [] ∧
      (entries rest = es ∨ entries rest = [] :: es) := by
  obtain ⟨a1, a2, a3⟩ := fgets_read_spec (c :: cs) 510 e es he hlen
  refine ⟨(fgets_read 510 (c :: cs)).1, (fgets_read 510 (c :: cs)).2, rfl, ?_, a1, ?_, a3⟩
  · have hsub : NUL ∉ (fgets_read 510 (c :: cs)).1 := by
      intro hin
      apply hnul
      rw [← a1]
      exact List.mem_append_left _ hin
    rw [cstr_eq_self _ hsub]
    have hn := entries_head_no_newline _ _ _ he
    rcases a2 with a2 | a2
    · rw [a2]; exact (takeWhile_line e hn).1
    · rw [a2]; exact (takeWhile_line e hn).2
  · by_cases hc : c = '\n'
    · simp [fgets_read, hc]
    · simp [fgets_read, hc]

theorem scan_iff (dn : List Char) (hdn : cstr dn ≠ []) : ∀ (fuel : Nat) (last : Option (List Char))
    (f : List Char), f.length ≤ fuel → NUL ∉ f → (∀ e ∈ entries f, e.length ≤ 510) →
    ((scan dn fuel last f).success = 1 ↔ cstr dn ∈ entries f) := by
  intro fuel
  induction fuel with
  | zero =>
    intro last f hf _ _
    have : f = [] := by simpa using hf
    subst this
    simp [scan, entries, hdn]
  | succ n ih =>
    intro last f hf hnul hlen
    cases f with
    | nil => simp [scan, fgets, entries, hdn]
    | cons c cs =>
      obtain ⟨e, es, he⟩ := List.exists_cons_of_ne_nil (entries_ne_nil (c :: cs))
      obtain ⟨buf, rest, hgets, hline, happ, hne, hrest⟩ :=
        fgets_turn c cs e es hnul he (hlen e (by simp [he]))
      unfold scan
      rw [hgets]
      simp only [hline]
      by_cases hm : cstr dn = e
      · simp [hm, he]
      · rw [if_neg hm]
        have hlenr : rest.length ≤ n := by
          have h1 : buf.length + rest.length = (c :: cs).length := by
            rw [← List.length_append, happ]
          have h2 : 0 < buf.length := List.length_pos.mpr hne
          simp at hf h1
          omega
        have hnulr : NUL ∉ rest := by
          intro hin
          apply hnul
          rw [← happ]
          exact List.mem_append_right _ hin
        have hlenes : ∀ x ∈ entries rest, x.length ≤ 510 := by
          intro x hx
          rcases hrest with hr | hr
          · rw [hr] at hx
            exact hlen x (by simp [he, hx])
          · rw [hr] at hx
            simp at hx
            rcases hx with hx | hx
            · simp [hx]
            · exact hlen x (by simp [he, hx])
        rw [ih (some e) rest hlenr hnulr hlenes, he]
        rcases hrest with hr | hr
        · rw [hr]; simp [hm]
        · rw [hr]; simp [hm, hdn]


theorem fgets_read_append (post : List Char) : ∀ (pre : List Char) (k : Nat), '\n' ∈ pre →
    fgets_read k (pre ++ post) = ((fgets_read k pre).1, (fgets_read k pre).2 ++ post) := by
  intro pre
  induction pre with
  | nil => intro k h; simp at h
  | cons c cs ih =>
    intro k h
    cases k with
    | zero => simp [fgets_read]
    | succ k =>
      by_cases hc : c = '\n'
      · simp [fgets_read, hc]
      · have hin : '\n' ∈ cs := by
          simp at h
          rcases h with h | h
          · exact absurd h.symm hc
          · exact h
        simp [fgets_read, hc, ih k hin]

/-- Once the DN is an entry of an initial part of the file that ends with a
newline, the loop accepts and reads nothing beyond that part. -/
theorem scan_stops (dn post : List Char) (hdn : cstr dn ≠ []) : ∀ (fuel : Nat)
    (last : Option (List Char)) (pre : List Char), (pre ++ post).length ≤ fuel →
    pre.getLast? = some '\n' → NUL ∉ pre → (∀ e ∈ entries pre, e.length ≤ 510) →
    cstr dn ∈ entries pre →
    (scan dn fuel last (pre ++ post)).success = 1 ∧
      post <:+ (scan dn fuel last (pre ++ post)).rest := by
  intro fuel
  induction fuel with
  | zero =>
    intro last pre hf hl _ _ _
    have : pre = [] := by
      have : pre ++ post = [] := by simpa using hf
      exact (List.append_eq_nil.mp this).1
    subst this
    simp at hl
  | succ n ih =>
    intro last pre hf hl hnul hlen hin
    cases pre with
    | nil => simp at hl
    | cons c cs =>
      obtain ⟨e, es, he⟩ := List.exists_cons_of_ne_nil (entries_ne_nil (c :: cs))
      obtain ⟨buf, rest, hgets, hline, happ, hne, hrest⟩ :=
        fgets_turn c cs e es hnul he (hlen e (by simp [he]))
      have hnl : '\n' ∈ c :: cs := List.mem_of_getLast?_eq_some hl
      have hgets2 : fgets (512 - 1) (c :: cs ++ post) = some (buf, rest ++ post) := by
        simp only [fgets, List.cons_append] at hgets ⊢
        rw [← List.cons_append, fgets_read_append post (c :: cs) _ hnl]
        simp only [Option.some.injEq] at hgets
        rw [hgets]
      unfold scan
      rw [hgets2]
      simp only [hline]
      by_cases hm : cstr dn = e
      · simp [hm]
      · rw [if_neg hm]
        have hes : cstr dn ∈ es := by
          rw [he] at hin
          simp at hin
          rcases hin with h | h
          · exact absurd h hm
          · exact h
        have hin2 : cstr dn ∈ entries rest := by
          rcases hrest with hr | hr
          · rw [hr]; exact hes
          · rw [hr]; simp [hes]
        have hrne : rest ≠ [] := by
          intro h0
          subst h0
          rcases hrest with hr | hr
          · rw [← hr] at hes
            simp [entries] at hes
            exact hdn hes
          · simp [entries] at hr
            rw [hr] at hes
            simp at hes
        have hl2 : rest.getLast? = some '\n' := by
          rw [← happ, List.getLast?_append_of_ne_nil _ hrne] at hl
          exact hl
        have hlenr : (rest ++ post).length ≤ n := by
          have h1 : buf.length + rest.length = (c :: cs).length := by
            rw [← List.length_append, happ]
          have h2 : 0 < buf.length := List.length_pos.mpr hne
          simp at hf h1 ⊢
          omega
        have hnulr : NUL ∉ rest := by
          intro hx
          apply hnul
          rw [← happ]
          exact List.mem_append_right _ hx
        have hlenes : ∀ x ∈ entries rest, x.length ≤ 510 := by
          intro x hx
          rcases hrest with hr | hr
          · rw [hr] at hx
            exact hlen x (by simp [he, hx])
          · rw [hr] at hx
            simp at hx
            rcases hx with hx | hx
            · simp [hx]
            · exact hlen x (by simp [he, hx])
        exact ih (some e) rest hlenr hl2 hnulr hlenes hin2

theorem fgets_read_rest_length : ∀ (k : Nat) (l : List Char),
    (fgets_read k l).2.length ≤ l.length := by
  intro k l
  induction l generalizing k with
  | nil => cases k <;> simp [fgets_read]
  | cons a l ihl =>
    cases k with
    | zero => simp [fgets_read]
    | succ k =>
      by_cases ha : a = '\n'
      · simp [fgets_read, ha]
      · simp only [fgets_read, if_neg ha]
        have := ihl k
        simp
        omega

theorem fgets_rest_length (c : Char) (cs : List Char) :
    (fgets_read 510 (c :: cs)).2.length ≤ cs.length := by
  by_cases hc : c = '\n'
  · simp [fgets_read, hc]
  · simp only [fgets_read, if_neg hc]
    exact fgets_read_rest_length 509 cs

/-- Fuel beyond the length of the file changes nothing: the loop has ended. -/
theorem scan_fuel_irrelevant (dn : List Char) : ∀ (n m : Nat) (last : Option (List Char))
    (f : List Char), f.length ≤ n → n ≤ m → scan dn m last f = scan dn n last f := by
  intro n
  induction n with
  | zero =>
    intro m last f hf _
    have : f = [] := by simpa using hf
    subst this
    cases m <;> simp [scan, fgets]
  | succ n ih =>
    intro m last f hf hm
    obtain ⟨m1, rfl⟩ : ∃ m1, m = m1 + 1 := ⟨m - 1, by omega⟩
    cases f with
    | nil => simp [scan, fgets]
    | cons c cs =>
      have hsplit := fgets_rest_length c cs
      have hcs : cs.length ≤ n := by simpa using hf
      have hrec := ih m1 (some (List.takeWhile (fun c => decide (c ≠ '\n'))
        (cstr (fgets_read 510 (c :: cs)).1))) (fgets_read 510 (c :: cs)).2
        (le_trans hsplit hcs) (by omega)
      simp only [scan, fgets, Nat.reduceSub]
      split_ifs with hmatch
      · rfl
      · exact hrec

/-! ## The authenticator: claims on `check_client` -/

/-- C1 (as stated, refuted): with the empty DN `check_client` does not return
accepted; on the allow-list `CN=admin` it returns 0. -/
theorem check_client_empty_dn_not_accepted :
    ¬ (check_client (some "".toList) (some "CN=admin\n".toList) ≠ 0) := by
  decide

/-- C1 (amended): for every state of the allow-list (any content, or a file that
cannot be opened) `check_client` returns 0, rejected, for the NULL pointer, for
the empty string and for every buffer that holds the empty C string; the
allow-list is not consulted. -/
theorem check_client_empty_dn_rejected (file : Option (List Char)) :
    check_client none file = 0 ∧ check_client (some []) file = 0 ∧
      ∀ d : List Char, cstr d = [] → check_client (some d) file = 0 := by
  refine ⟨rfl, rfl, ?_⟩
  intro d hd
  simp [check_client, hd]

set_option maxRecDepth 100000 in
/-- C2 (as stated, refuted): the only entry of the file is a line of 514 bytes,
510 times `x` followed by `CN=a`; the DN `CN=a` is not an entry of the file and
`check_client` accepts it, because `fgets` hands the line over in two pieces. -/
theorem check_client_accepts_unlisted_dn :
    check_client (some "CN=a".toList) (some (List.replicate 510 'x' ++ "CN=a\n".toList)) = 1 ∧
      "CN=a".toList ∉ entries (List.replicate 510 'x' ++ "CN=a\n".toList) := by
  decide

/-- C2 (amended): for a non-empty DN and a readable allow-list file without NUL
byte whose lines are at most 510 bytes long, `check_client` returns 1 exactly when
the DN equals, byte for byte, one of the newline-separated entries of the file,
and 0 exactly when it equals none. The scan is in file order and stops at the
first match: when the DN is an entry of such a file that ends with a newline,
the DN is accepted whatever follows in the file, and nothing of what follows is
read. -/
theorem check_client_accepts_iff_listed (dn content : List Char) (hdn : cstr dn ≠ [])
    (hnul : NUL ∉ content) (hlen : ∀ e ∈ entries content, e.length ≤ 510) :
    (check_client (some dn) (some content) = 1 ↔ cstr dn ∈ entries content) ∧
    (check_client (some dn) (some content) = 0 ↔ cstr dn ∉ entries content) ∧
    (∀ post : List Char, content.getLast? = some '\n' → cstr dn ∈ entries content →
      check_client (some dn) (some (content ++ post)) = 1 ∧
        post <:+ check_client_unread dn (content ++ post)) := by
  have h1 : check_client (some dn) (some content) = 1 ↔ cstr dn ∈ entries content := by
    simp only [check_client, if_neg hdn]
    exact scan_iff dn hdn content.length none content (le_refl _) hnul hlen
  refine ⟨h1, ?_, ?_⟩
  · rw [← h1]
    simp only [check_client, if_neg hdn]
    rcases scan_success_zero_or_one dn content.length none content with h | h
    · simp [h]
    · simp [h]
  · intro post hl hin
    have := scan_stops dn post hdn (content ++ post).length none content (le_refl _)
      hl hnul hlen hin
    simpa only [check_client, if_neg hdn, check_client_unread] using this

/-- C2, an instance: `CN=b` is the second entry of a file of two short lines; it
is accepted, and a third line added to the file is left unread. -/
theorem check_client_accepts_iff_listed_witness :
    (cstr "CN=b".toList ≠ [] ∧ NUL ∉ "CN=a\nCN=b\n".toList ∧
      ∀ e ∈ entries "CN=a\nCN=b\n".toList, e.length ≤ 510) ∧
    check_client (some "CN=b".toList) (some "CN=a\nCN=b\n".toList) = 1 ∧
    "CN=c\n".toList <:+
      check_client_unread "CN=b".toList ("CN=a\nCN=b\n".toList ++ "CN=c\n".toList) :=
  ⟨⟨by decide, by decide, by decide⟩,
   (check_client_accepts_iff_listed "CN=b".toList "CN=a\nCN=b\n".toList (by decide) (by decide)
      (by decide)).1.mpr (by decide),
   ((check_client_accepts_iff_listed "CN=b".toList "CN=a\nCN=b\n".toList (by decide) (by decide)
      (by decide)).2.2 "CN=c\n".toList (by decide) (by decide)).2⟩

/-- C3: for every non-empty DN, when the allow-list file cannot be opened
`check_client` returns 0: it fails closed. -/
theorem check_client_fails_closed (dn : List Char) (_hdn : cstr dn ≠ []) :
    check_client (some dn) none = 0 := by
  simp [check_client]

/-- C3, an instance: the DN `CN=admin` without a readable allow-list. -/
theorem check_client_fails_closed_witness :
    cstr "CN=admin".toList ≠ [] ∧ check_client (some "CN=admin".toList) none = 0 :=
  ⟨by decide, check_client_fails_closed "CN=admin".toList (by decide)⟩

/-! ## Lemmas on the session -/

theorem start_daemon_mode_events (e : SessionEnv) :
    ∀ x ∈ (start_daemon_mode e).events, x.is_serving = false ∧ x.is_check_client = false := by
  unfold start_daemon_mode
  simp only
  split_ifs <;>
    simp [Event.is_serving, Event.is_push, Event.is_check_client]

theorem start_daemon_mode_exit (e : SessionEnv) :
    (start_daemon_mode e).exit = none ∨ (start_daemon_mode e).exit = some 0 ∨
      (start_daemon_mode e).exit = some 2 := by
  unfold start_daemon_mode
  simp only
  split_ifs <;> simp

theorem shutdown_and_exit_events (e : SessionEnv) (soc2 : Int) (before : List Event) :
    (shutdown_and_exit e soc2 before).exit = some 0 ∧
    (∀ x ∈ (shutdown_and_exit e soc2 before).events,
      x ∈ before ∨ (x.is_serving = false ∧ x.is_check_client = false)) := by
  unfold shutdown_and_exit end_daemon_mode
  refine ⟨rfl, ?_⟩
  intro x hx
  simp only [List.mem_append, List.mem_singleton] at hx
  rcases hx with (hx | hx) | hx
  · exact Or.inl hx
  · right
    split_ifs at hx
    · simp at hx
      subst hx
      simp [Event.is_serving, Event.is_push, Event.is_check_client]
    · simp at hx
      rcases hx with hx | hx <;> subst hx <;>
        simp [Event.is_serving, Event.is_push, Event.is_check_client]
  · right
    subst hx
    simp [Event.is_serving, Event.is_push, Event.is_check_client]

theorem wait_loop_events (e : SessionEnv) : ∀ (n : Nat),
    ∀ x ∈ (wait_loop e n).events, x.is_push = false ∧ x.is_check_client = false := by
  intro n
  induction n with
  | zero => simp [wait_loop]
  | succ n ih =>
    unfold wait_loop
    split_ifs
    · intro x hx
      simp only [List.mem_append] at hx
      rcases hx with (hx | hx) | hx
      · revert x
        simp [serve_once, Event.is_push, Event.is_check_client]
      · revert x
        simp [Event.is_push, Event.is_check_client]
      · exact ih x hx
    · unfold shutdown_and_exit end_daemon_mode serve_once
      split_ifs <;> simp [Event.is_push, Event.is_check_client]

theorem wait_loop_exit (e : SessionEnv) : ∀ (n : Nat),
    (wait_loop e n).exit = none ∨ (wait_loop e n).exit = some 0 := by
  intro n
  induction n with
  | zero => simp [wait_loop]
  | succ n ih =>
    unfold wait_loop
    split_ifs
    · exact ih
    · simp [shutdown_and_exit]

theorem scanner_thread_login_rejects (e : SessionEnv) (rounds : Nat) (before : List Event)
    (dn : List Char) (h : check_client (some dn) e.dname_file = 0) :
    scanner_thread_login e rounds before dn =
      shutdown_and_exit e e.attach
        (before ++ [Event.check_client dn 0, Event.auth_printf "Bad login attempt !",
                    Event.log_write "bad login attempt from"]) := by
  unfold scanner_thread_login
  simp [h]

theorem scanner_thread_login_accepts (e : SessionEnv) (rounds : Nat) (before : List Event)
    (dn : List Char) (h : check_client (some dn) e.dname_file ≠ 0) :
    (scanner_thread_login e rounds before dn).events =
      before ++ [Event.check_client dn (check_client (some dn) e.dname_file),
                 Event.arg_set_value_plugins]
        ++ (if e.comm_init = e.OTP_20 then
              [Event.comm_send_nvt_info, Event.comm_send_preferences,
               Event.ntp_1x_send_dependencies]
            else [])
        ++ (start_daemon_mode e).events
        ++ (match (start_daemon_mode e).exit with
            | some _ => []
            | none => (wait_loop e rounds).events) := by
  unfold scanner_thread_login
  simp only [if_neg h]
  split <;> rename_i hx <;> simp [hx]

/-- The events of a session up to the call of `check_client`. -/
theorem scanner_thread_opening (e : SessionEnv) (rounds : Nat) (h : reaches_login e) :
    ∃ l1 l2 : List Event,
      scanner_thread e rounds =
        scanner_thread_login e rounds (l1 ++ Event.comm_init e.attach :: l2) (x509_dname e) ∧
      Event.ovas_scanner_context_attach e.soc ∈ l1 ∧
      ∀ x ∈ l1 ++ Event.comm_init e.attach :: l2,
        x.is_serving = false ∧ x.is_check_client = false := by
  obtain ⟨h1, h2, h3, h4⟩ := h
  have h1n : ¬ e.attach < 0 := not_lt.mpr h1
  by_cases hc : 0 < e.cert_list_size
  · obtain ⟨h5, h6⟩ := h4 hc
    refine ⟨[Event.proctitle_set]
      ++ (if e.benice then
            Event.nice 10 ::
              (if e.nice_fails then [Event.log_write "Unable to renice process"] else [])
          else [])
      ++ [Event.openvas_signal "SIGCHLD", Event.close e.global_iana_socket,
          Event.ovas_scanner_context_attach e.soc]
      ++ [Event.setsockopt e.soc, Event.arg_set_value_global_socket e.attach],
      [Event.gnutls_certificate_type_get, Event.gnutls_certificate_get_peers,
       Event.gnutls_x509_crt_import, Event.gnutls_x509_crt_get_dn], ?_, by simp, ?_⟩
    · unfold scanner_thread
      simp [h1n, h2, h3, hc, not_lt.mpr h5, not_lt.mpr h6, x509_dname]
    · split_ifs <;> simp [Event.is_serving, Event.is_push, Event.is_check_client]
  · refine ⟨[Event.proctitle_set]
      ++ (if e.benice then
            Event.nice 10 ::
              (if e.nice_fails then [Event.log_write "Unable to renice process"] else [])
          else [])
      ++ [Event.openvas_signal "SIGCHLD", Event.close e.global_iana_socket,
          Event.ovas_scanner_context_attach e.soc]
      ++ [Event.setsockopt e.soc, Event.arg_set_value_global_socket e.attach],
      [Event.gnutls_certificate_type_get, Event.gnutls_certificate_get_peers], ?_, by simp, ?_⟩
    · unfold scanner_thread
      simp [h1n, h2, h3, hc, x509_dname]
    · split_ifs <;> simp [Event.is_serving, Event.is_push, Event.is_check_client]

/-- A session that does not get as far as `check_client` exits at once. -/
theorem scanner_thread_no_login (e : SessionEnv) (rounds : Nat) (h : ¬ reaches_login e) :
    (scanner_thread e rounds).exit = some 0 ∧
    (∀ x ∈ (scanner_thread e rounds).events,
      x.is_serving = false ∧ x.is_check_client = false) ∧
    (Event.close_stream_connection e.attach ∈ (scanner_thread e rounds).events ∨
      Event.close_stream_connection e.soc ∈ (scanner_thread e rounds).events ∨
      Event.close e.soc ∈ (scanner_thread e rounds).events) := by
  unfold reaches_login at h
  unfold scanner_thread
  simp only
  by_cases h1 : e.attach < 0
  · rw [if_pos h1]
    unfold shutdown_and_exit end_daemon_mode
    simp only [ge_iff_le, if_neg (not_le.mpr h1)]
    refine ⟨by simp, ?_, ?_⟩
    · split_ifs <;> simp [Event.is_serving, Event.is_push, Event.is_check_client]
    · simp
  · rw [if_neg h1]
    by_cases h2 : e.comm_init = 0
    · rw [if_pos h2]
      refine ⟨by simp, ?_, ?_⟩
      · split_ifs <;> simp [Event.is_serving, Event.is_push, Event.is_check_client]
      · simp
    · rw [if_neg h2]
      have h1p : 0 ≤ e.attach := not_lt.mp h1
      by_cases h3 : e.cert_type_x509 = false
      · rw [if_pos h3]
        unfold shutdown_and_exit end_daemon_mode
        simp only [ge_iff_le, if_pos h1p]
        refine ⟨by simp, ?_, ?_⟩
        · split_ifs <;> simp [Event.is_serving, Event.is_push, Event.is_check_client]
        · simp
      · rw [if_neg h3]
        have h3t : e.cert_type_x509 = true := by simpa using h3
        by_cases hc : 0 < e.cert_list_size
        · rw [if_pos hc]
          by_cases h5 : e.crt_import < 0
          · rw [if_pos h5]
            unfold shutdown_and_exit end_daemon_mode
            simp only [ge_iff_le, if_pos h1p]
            refine ⟨by simp, ?_, ?_⟩
            · split_ifs <;> simp [Event.is_serving, Event.is_push, Event.is_check_client]
            · simp
          · rw [if_neg h5]
            by_cases h6 : e.crt_get_dn < 0
            · rw [if_pos h6]
              unfold shutdown_and_exit end_daemon_mode
              simp only [ge_iff_le, if_pos h1p]
              refine ⟨by simp, ?_, ?_⟩
              · split_ifs <;> simp [Event.is_serving, Event.is_push, Event.is_check_client]
              · simp
            · exact absurd ⟨h1p, h2, h3t, fun _ => ⟨not_lt.mp h5, not_lt.mp h6⟩⟩ h
        · exact absurd ⟨h1p, h2, h3t, fun hh => absurd hh hc⟩ h

theorem is_push_of_not_serving (x : Event) (h : x.is_serving = false) :
    x.is_push = false := by
  cases x <;> first | rfl | exact h

/-- What follows the call of `check_client` in a session. -/
theorem scanner_thread_login_tail (e : SessionEnv) (rounds : Nat) (before : List Event)
    (dn : List Char) (hattach : 0 ≤ e.attach) :
    ∃ l3 : List Event,
      (scanner_thread_login e rounds before dn).events =
        before ++ Event.check_client dn (check_client (some dn) e.dname_file) :: l3 ∧
      (∀ x ∈ l3, x.is_check_client = false) ∧
      ((∃ x ∈ l3, x.is_serving = true) → check_client (some dn) e.dname_file ≠ 0) ∧
      (check_client (some dn) e.dname_file = 0 →
        (scanner_thread_login e rounds before dn).exit = some 0 ∧
        l3 = [Event.auth_printf "Bad login attempt !", Event.log_write "bad login attempt from",
              Event.close_stream_connection e.attach, Event.make_em_die "SIGTERM"]) := by
  by_cases h : check_client (some dn) e.dname_file = 0
  · refine ⟨[Event.auth_printf "Bad login attempt !", Event.log_write "bad login attempt from",
              Event.close_stream_connection e.attach, Event.make_em_die "SIGTERM"], ?_, ?_, ?_, ?_⟩
    · rw [scanner_thread_login_rejects e rounds before dn h, h]
      unfold shutdown_and_exit end_daemon_mode
      simp [hattach]
    · simp [Event.is_check_client]
    · simp [Event.is_serving, Event.is_push]
    · intro _
      rw [scanner_thread_login_rejects e rounds before dn h]
      simp [shutdown_and_exit]
  · refine ⟨[Event.arg_set_value_plugins]
        ++ (if e.comm_init = e.OTP_20 then
              [Event.comm_send_nvt_info, Event.comm_send_preferences,
               Event.ntp_1x_send_dependencies]
            else [])
        ++ (start_daemon_mode e).events
        ++ (match (start_daemon_mode e).exit with
            | some _ => []
            | none => (wait_loop e rounds).events), ?_, ?_, fun _ => h, fun h0 => absurd h0 h⟩
    · rw [scanner_thread_login_accepts e rounds before dn h]
      simp
    · intro x hx
      simp only [List.mem_append, List.mem_singleton] at hx
      rcases hx with ((hx | hx) | hx) | hx
      · subst hx; rfl
      · split_ifs at hx
        · simp at hx
          rcases hx with hx | hx | hx <;> subst hx <;> rfl
        · simp at hx
      · exact (start_daemon_mode_events e x hx).2
      · split at hx
        · simp at hx
        · exact (wait_loop_events e rounds x hx).2

/-! ## Lemmas on the order of the calls in a session -/

theorem start_daemon_mode_no_dn (e : SessionEnv) :
    ∀ x ∈ (start_daemon_mode e).events, x.is_dn_extraction = false := by
  unfold start_daemon_mode
  simp only
  split_ifs <;> simp [Event.is_dn_extraction]

theorem wait_loop_no_dn (e : SessionEnv) : ∀ (n : Nat),
    ∀ x ∈ (wait_loop e n).events, x.is_dn_extraction = false := by
  intro n
  induction n with
  | zero => simp [wait_loop]
  | succ n ih =>
    unfold wait_loop
    split_ifs
    · intro x hx
      simp only [List.mem_append] at hx
      rcases hx with (hx | hx) | hx
      · revert x
        simp [serve_once, Event.is_dn_extraction]
      · revert x
        simp [Event.is_dn_extraction]
      · exact ih x hx
    · unfold shutdown_and_exit end_daemon_mode serve_once
      split_ifs <;> simp [Event.is_dn_extraction]

theorem shutdown_and_exit_split (e : SessionEnv) (soc2 : Int) (before : List Event) :
    ∃ tail : List Event, (shutdown_and_exit e soc2 before).events = before ++ tail ∧
      ∀ x ∈ tail, x.is_dn_extraction = false ∧ x.is_check_client = false := by
  refine ⟨(if soc2 ≥ 0 then [Event.close_stream_connection soc2]
        else [Event.shutdown e.soc, Event.close e.soc]) ++ end_daemon_mode, ?_, ?_⟩
  · simp [shutdown_and_exit]
  · unfold end_daemon_mode
    split_ifs <;> simp [Event.is_dn_extraction, Event.is_check_client]

/-- What follows the call of `check_client`: no further reading of the
certificate. -/
theorem scanner_thread_login_split (e : SessionEnv) (rounds : Nat) (before : List Event)
    (dn : List Char) :
    ∃ l3 : List Event,
      (scanner_thread_login e rounds before dn).events =
        before ++ Event.check_client dn (check_client (some dn) e.dname_file) :: l3 ∧
      ∀ x ∈ l3, x.is_dn_extraction = false := by
  by_cases h : check_client (some dn) e.dname_file = 0
  · obtain ⟨tail, ht, hp⟩ := shutdown_and_exit_split e e.attach
      (before ++ [Event.check_client dn 0, Event.auth_printf "Bad login attempt !",
                  Event.log_write "bad login attempt from"])
    refine ⟨[Event.auth_printf "Bad login attempt !",
      Event.log_write "bad login attempt from"] ++ tail, ?_, ?_⟩
    · rw [scanner_thread_login_rejects e rounds before dn h, ht, h]
      simp
    · intro x hx
      simp only [List.mem_append, List.mem_cons, List.mem_singleton, List.not_mem_nil,
        or_false] at hx
      rcases hx with (hx | hx) | hx
      · subst hx; rfl
      · subst hx; rfl
      · exact (hp x hx).1
  · refine ⟨[Event.arg_set_value_plugins]
        ++ (if e.comm_init = e.OTP_20 then
              [Event.comm_send_nvt_info, Event.comm_send_preferences,
               Event.ntp_1x_send_dependencies]
            else [])
        ++ (start_daemon_mode e).events
        ++ (match (start_daemon_mode e).exit with
            | some _ => []
            | none => (wait_loop e rounds).events), ?_, ?_⟩
    · rw [scanner_thread_login_accepts e rounds before dn h]
      simp
    · intro x hx
      simp only [List.mem_append, List.mem_singleton] at hx
      rcases hx with ((hx | hx) | hx) | hx
      · subst hx; rfl
      · split_ifs at hx
        · simp at hx
          rcases hx with hx | hx | hx <;> subst hx <;> rfl
        · simp at hx
      · exact start_daemon_mode_no_dn e x hx
      · split at hx
        · simp at hx
        · exact wait_loop_no_dn e rounds x hx

/-- In a list cut at `c`, an element that is neither `c` nor before `c` has `c`
before it. -/
theorem mem_before_of_split {α : Type} (a b pre post : List α) (c x : α)
    (h : a ++ c :: b = pre ++ x :: post) (hxa : x ∉ a) (hxc : x ≠ c) : c ∈ pre := by
  rcases List.append_eq_append_iff.mp h with ⟨a1, h1, h2⟩ | ⟨c1, h1, h2⟩
  · cases a1 with
    | nil =>
      simp at h2
      exact absurd h2.1.symm hxc
    | cons y a2 =>
      simp at h2
      rw [h1, ← h2.1]
      simp
  · cases c1 with
    | nil =>
      simp at h2
      exact absurd h2.1 hxc
    | cons y c2 =>
      simp at h2
      exfalso
      apply hxa
      rw [h1, ← h2.1]
      simp

/-- The calls of a session before `comm_init`: none of them reads the
certificate, checks the client, serves or opens the protocol. -/
theorem session_opening_calls (e : SessionEnv) :
    Event.ovas_scanner_context_attach e.soc ∈ session_opening e ∧
    ∀ x ∈ session_opening e,
      x.is_serving = false ∧ x.is_check_client = false ∧ x.is_dn_extraction = false ∧
        x ≠ Event.comm_init e.attach := by
  unfold session_opening
  constructor
  · simp
  · intro x hx
    simp only [List.mem_append, List.mem_cons, List.mem_singleton, List.not_mem_nil,
      or_false] at hx
    rcases hx with ((hx | hx) | hx | hx | hx) | hx | hx
    · subst hx; exact ⟨rfl, rfl, rfl, by simp⟩
    · split_ifs at hx
      · simp at hx
        rcases hx with hx | hx <;> subst hx <;> exact ⟨rfl, rfl, rfl, by simp⟩
      · simp at hx
        subst hx; exact ⟨rfl, rfl, rfl, by simp⟩
      · simp at hx
    · subst hx; exact ⟨rfl, rfl, rfl, by simp⟩
    · subst hx; exact ⟨rfl, rfl, rfl, by simp⟩
    · subst hx; exact ⟨rfl, rfl, rfl, by simp⟩
    · subst hx; exact ⟨rfl, rfl, rfl, by simp⟩
    · subst hx; exact ⟨rfl, rfl, rfl, by simp⟩

theorem session_dn_calls_events (e : SessionEnv) :
    ∀ x ∈ session_dn_calls e,
      x.is_serving = false ∧ x.is_check_client = false ∧ x.is_dn_extraction = true := by
  unfold session_dn_calls
  intro x hx
  simp only [List.mem_append, List.mem_cons, List.mem_singleton, List.not_mem_nil,
    or_false] at hx
  rcases hx with (hx | hx) | hx
  · subst hx; exact ⟨rfl, rfl, rfl⟩
  · subst hx; exact ⟨rfl, rfl, rfl⟩
  · split_ifs at hx
    · simp at hx
      rcases hx with hx | hx <;> subst hx <;> exact ⟨rfl, rfl, rfl⟩
    · simp at hx

/-- A session that gets as far as `check_client` has made exactly these calls
before it: the opening, `comm_init`, and the reading of the certificate. -/
theorem scanner_thread_opening_exact (e : SessionEnv) (rounds : Nat) (h : reaches_login e) :
    scanner_thread e rounds =
      scanner_thread_login e rounds
        (session_opening e ++ Event.comm_init e.attach :: session_dn_calls e)
        (x509_dname e) := by
  obtain ⟨h1, h2, h3, h4⟩ := h
  have h1n : ¬ e.attach < 0 := not_lt.mpr h1
  by_cases hc : 0 < e.cert_list_size
  · obtain ⟨h5, h6⟩ := h4 hc
    unfold scanner_thread session_opening session_dn_calls
    simp [h1n, h2, h3, hc, not_lt.mpr h5, not_lt.mpr h6, x509_dname]
  · unfold scanner_thread session_opening session_dn_calls
    simp [h1n, h2, h3, hc, x509_dname]

/-- Every session with the TLS stream attached makes the opening calls and then
`comm_init`. -/
theorem scanner_thread_after_attach (e : SessionEnv) (rounds : Nat) (h : 0 ≤ e.attach) :
    ∃ rest : List Event,
      (scanner_thread e rounds).events =
        session_opening e ++ Event.comm_init e.attach :: rest := by
  have h1n : ¬ e.attach < 0 := not_lt.mpr h
  have hshut : ∀ m : List Event, ∃ rest : List Event,
      (shutdown_and_exit e e.attach
        (session_opening e ++ Event.comm_init e.attach :: m)).events =
        session_opening e ++ Event.comm_init e.attach :: rest := by
    intro m
    obtain ⟨tail, ht, _⟩ := shutdown_and_exit_split e e.attach
      (session_opening e ++ Event.comm_init e.attach :: m)
    exact ⟨m ++ tail, by rw [ht]; simp⟩
  have hlogin : ∀ (m : List Event) (dn : List Char), ∃ rest : List Event,
      (scanner_thread_login e rounds
        (session_opening e ++ Event.comm_init e.attach :: m) dn).events =
        session_opening e ++ Event.comm_init e.attach :: rest := by
    intro m dn
    obtain ⟨l3, ht, _⟩ := scanner_thread_login_split e rounds
      (session_opening e ++ Event.comm_init e.attach :: m) dn
    exact ⟨m ++ Event.check_client dn (check_client (some dn) e.dname_file) :: l3,
      by rw [ht]; simp⟩
  have hshape : ∀ m : List Event,
      [Event.proctitle_set]
        ++ (if e.benice then
              Event.nice 10 ::
                (if e.nice_fails then [Event.log_write "Unable to renice process"] else [])
            else [])
        ++ [Event.openvas_signal "SIGCHLD", Event.close e.global_iana_socket,
            Event.ovas_scanner_context_attach e.soc]
        ++ [Event.setsockopt e.soc, Event.arg_set_value_global_socket e.attach,
            Event.comm_init e.attach] ++ m =
      session_opening e ++ Event.comm_init e.attach :: m := by
    intro m
    simp [session_opening]
  unfold scanner_thread
  simp only [if_neg h1n]
  by_cases h2 : e.comm_init = 0
  · rw [if_pos h2]
    exact ⟨_, hshape _⟩
  · rw [if_neg h2]
    by_cases h3 : e.cert_type_x509 = false
    · rw [if_pos h3]
      have := hshut [Event.gnutls_certificate_type_get,
        Event.log_write "Certificate is not an X.509 certificate."]
      rw [← hshape] at this
      simpa [List.append_assoc] using this
    · rw [if_neg h3]
      by_cases hc : 0 < e.cert_list_size
      · rw [if_pos hc]
        by_cases h5 : e.crt_import < 0
        · rw [if_pos h5]
          have := hshut [Event.gnutls_certificate_type_get, Event.gnutls_certificate_get_peers,
            Event.gnutls_x509_crt_import, Event.log_write "certificate decoding error"]
          rw [← hshape] at this
          simpa [List.append_assoc] using this
        · rw [if_neg h5]
          by_cases h6 : e.crt_get_dn < 0
          · rw [if_pos h6]
            have := hshut [Event.gnutls_certificate_type_get,
              Event.gnutls_certificate_get_peers, Event.gnutls_x509_crt_import,
              Event.gnutls_x509_crt_get_dn,
              Event.log_write "couldn't get subject from certificate"]
            rw [← hshape] at this
            simpa [List.append_assoc] using this
          · rw [if_neg h6]
            have := hlogin [Event.gnutls_certificate_type_get,
              Event.gnutls_certificate_get_peers, Event.gnutls_x509_crt_import,
              Event.gnutls_x509_crt_get_dn] e.peer_dn
            rw [← hshape] at this
            simpa [List.append_assoc] using this
      · rw [if_neg hc]
        have := hlogin [Event.gnutls_certificate_type_get,
          Event.gnutls_certificate_get_peers] []
        rw [← hshape] at this
        simpa [List.append_assoc] using this

/-- Without the TLS stream attached a session reads no certificate and checks no
client. -/
theorem scanner_thread_no_attach (e : SessionEnv) (rounds : Nat) (h : e.attach < 0) :
    ∀ x ∈ (scanner_thread e rounds).events,
      x.is_dn_extraction = false ∧ x.is_check_client = false := by
  unfold scanner_thread
  simp only [if_pos h]
  obtain ⟨tail, ht, hp⟩ := shutdown_and_exit_split e e.attach
    ([Event.proctitle_set]
      ++ (if e.benice then
            Event.nice 10 ::
              (if e.nice_fails then [Event.log_write "Unable to renice process"] else [])
          else [])
      ++ [Event.openvas_signal "SIGCHLD", Event.close e.global_iana_socket,
          Event.ovas_scanner_context_attach e.soc])
  rw [ht]
  intro x hx
  rw [List.mem_append] at hx
  rcases hx with hx | hx
  · have hsub : x ∈ session_opening e := by
      unfold session_opening
      exact List.mem_append_left _ hx
    have := (session_opening_calls e).2 x hsub
    exact ⟨this.2.2.1, this.2.1⟩
  · exact hp x hx

/-- Entering daemon mode: the listener socket is closed and `setsid` is called
first, and `/dev/null` is opened. -/
theorem start_daemon_mode_enters (e : SessionEnv) :
    (∃ tail : List Event,
      (start_daemon_mode e).events = Event.close e.global_iana_socket :: Event.setsid :: tail) ∧
    Event.open_file "/dev/null" ∈ (start_daemon_mode e).events := by
  unfold start_daemon_mode
  simp only
  split_ifs <;> simp

/-- When `start_daemon_mode` returns and when it exits. -/
theorem start_daemon_mode_outcome (e : SessionEnv) :
    (e.null_fd < 0 → (start_daemon_mode e).exit = some 0) ∧
    (0 ≤ e.null_fd → arg_get_value e.global_preferences "dumpfile" = some "-" →
      (start_daemon_mode e).exit = none) ∧
    (0 ≤ e.null_fd → 0 ≤ e.dump_fd → (start_daemon_mode e).exit = none) ∧
    (0 ≤ e.null_fd → e.dump_fd < 0 →
      (∀ v, arg_get_value e.global_preferences "dumpfile" = some v → v ≠ "-") →
      (arg_get_value e.global_preferences "dumpfile" = none → e.OPENVASSD_DEBUGMSG ≠ "-") →
      (start_daemon_mode e).exit = some 2) := by
  refine ⟨fun h => ?_, fun h hd => ?_, fun h hf => ?_, fun h hf h1 h2 => ?_⟩
  · unfold start_daemon_mode
    simp [h]
  · unfold start_daemon_mode
    simp [not_lt.mpr h, hd]
  · unfold start_daemon_mode
    simp only [if_neg (not_lt.mpr h), if_neg (not_lt.mpr hf)]
    split_ifs <;> rfl
  · unfold start_daemon_mode
    simp only [if_neg (not_lt.mpr h), if_pos hf]
    cases hv : arg_get_value e.global_preferences "dumpfile" with
    | none => simp [h2 hv]
    | some v => simp [h1 v hv]

/-- One pass of the serving loop: the wait for an order, the scan, and then either
the jump back to `wait` or the shutdown. -/
theorem wait_loop_succ (e : SessionEnv) (n : Nat) (h : 0 ≤ e.attach) :
    (wait_loop e (n + 1)).events =
      [Event.comm_wait_order, Event.preferences_reset_cache,
       Event.ntp_1x_timestamp_scan_starts, Event.attack_network,
       Event.ntp_1x_timestamp_scan_ends, Event.comm_terminate]
        ++ (if (arg_get_value e.prefs "ntp_keep_communication_alive").isSome = true then
              Event.log_write "Kept alive connection" :: (wait_loop e n).events
            else [Event.close_stream_connection e.attach, Event.make_em_die "SIGTERM"]) ∧
    (wait_loop e (n + 1)).exit =
      (if (arg_get_value e.prefs "ntp_keep_communication_alive").isSome = true then
        (wait_loop e n).exit
      else some 0) := by
  by_cases hk : (arg_get_value e.prefs "ntp_keep_communication_alive").isSome = true
  · simp [wait_loop, hk, serve_once]
  · simp [wait_loop, hk, serve_once, shutdown_and_exit, end_daemon_mode, h]

/-! ## The session: claims on `scanner_thread` -/

/-- C4: in every session in which the peer presents zero certificates the session
is rejected: the process exits (status 0), the connection is closed, and neither
the metadata push, the wait for a scan order nor the scan engine is ever called.
When the session gets as far as the authentication check, `check_client` is called
with the empty DN, returns 0, and the bad login is reported. -/
theorem scanner_thread_no_certificate_rejected (e : SessionEnv) (rounds : Nat)
    (h : e.cert_list_size = 0) :
    (scanner_thread e rounds).exit = some 0 ∧
    (∀ x ∈ (scanner_thread e rounds).events, x.is_serving = false) ∧
    (Event.close_stream_connection e.attach ∈ (scanner_thread e rounds).events ∨
      Event.close_stream_connection e.soc ∈ (scanner_thread e rounds).events ∨
      Event.close e.soc ∈ (scanner_thread e rounds).events) ∧
    (reaches_login e →
      Event.check_client [] 0 ∈ (scanner_thread e rounds).events ∧
      Event.auth_printf "Bad login attempt !" ∈ (scanner_thread e rounds).events) := by
  by_cases hl : reaches_login e
  · obtain ⟨l1, l2, heq, _, hpre⟩ := scanner_thread_opening e rounds hl
    have hdn : x509_dname e = [] := by simp [x509_dname, h]
    have hrej : check_client (some []) e.dname_file = 0 := rfl
    rw [heq, hdn, scanner_thread_login_rejects e rounds _ [] hrej]
    unfold shutdown_and_exit end_daemon_mode
    simp only [ge_iff_le, if_pos hl.1]
    refine ⟨trivial, ?_, by simp, fun _ => by simp⟩
    intro x hx
    simp only [List.mem_append, List.mem_cons, List.mem_singleton, List.not_mem_nil,
      or_false] at hx
    rcases hx with ((hx | hx) | hx) | hx
    · exact (hpre x (by simp [hx])).1
    · rcases hx with hx | hx | hx <;> subst hx <;> simp [Event.is_serving, Event.is_push]
    · subst hx; simp [Event.is_serving, Event.is_push]
    · subst hx; simp [Event.is_serving, Event.is_push]
  · obtain ⟨h1, h2, h3⟩ := scanner_thread_no_login e rounds hl
    exact ⟨h1, fun x hx => (h2 x hx).1, h3, fun hh => absurd hh hl⟩

/-- C4, an instance: the session `session_no_cert` exits without serving. -/
theorem scanner_thread_no_certificate_rejected_witness :
    (scanner_thread session_no_cert 1).exit = some 0 ∧
      Event.attack_network ∉ (scanner_thread session_no_cert 1).events ∧
      Event.check_client [] 0 ∈ (scanner_thread session_no_cert 1).events :=
  ⟨(scanner_thread_no_certificate_rejected session_no_cert 1 rfl).1,
   fun hin => by
    have := (scanner_thread_no_certificate_rejected session_no_cert 1 rfl).2.1 _ hin
    simp [Event.is_serving] at this,
   ((scanner_thread_no_certificate_rejected session_no_cert 1 rfl).2.2.2
      (by decide)).1⟩

/-- C5: in every session the metadata push, the wait for a scan order and the scan
engine are reached only if the session got as far as `check_client` and
`check_client` accepted the DN read from the peer certificate. When `check_client`
rejects that DN the session goes to shutdown: it reports the bad login, closes the
TLS connection, terminates the descendants and exits, and none of the serving
calls is made. -/
theorem scanner_thread_serves_only_accepted (e : SessionEnv) (rounds : Nat) :
    ((∃ x ∈ (scanner_thread e rounds).events, x.is_serving = true) →
      reaches_login e ∧ check_client (some (x509_dname e)) e.dname_file ≠ 0) ∧
    (reaches_login e → check_client (some (x509_dname e)) e.dname_file = 0 →
      (scanner_thread e rounds).exit = some 0 ∧
      (∃ before : List Event, (scanner_thread e rounds).events =
        before ++ [Event.check_client (x509_dname e) 0,
                   Event.auth_printf "Bad login attempt !",
                   Event.log_write "bad login attempt from",
                   Event.close_stream_connection e.attach, Event.make_em_die "SIGTERM"]) ∧
      (∀ x ∈ (scanner_thread e rounds).events, x.is_serving = false)) := by
  have key : reaches_login e → check_client (some (x509_dname e)) e.dname_file = 0 →
      (scanner_thread e rounds).exit = some 0 ∧
      (∃ before : List Event, (scanner_thread e rounds).events =
        before ++ [Event.check_client (x509_dname e) 0,
                   Event.auth_printf "Bad login attempt !",
                   Event.log_write "bad login attempt from",
                   Event.close_stream_connection e.attach, Event.make_em_die "SIGTERM"]) ∧
      (∀ x ∈ (scanner_thread e rounds).events, x.is_serving = false) := by
    intro hl hrej
    obtain ⟨l1, l2, heq, _, hpre⟩ := scanner_thread_opening e rounds hl
    obtain ⟨l3, hev, _, _, hfin⟩ :=
      scanner_thread_login_tail e rounds (l1 ++ Event.comm_init e.attach :: l2) (x509_dname e) hl.1
    obtain ⟨hexit, hl3⟩ := hfin hrej
    rw [heq]
    refine ⟨hexit, ⟨l1 ++ Event.comm_init e.attach :: l2, ?_⟩, ?_⟩
    · rw [hev, hl3, hrej]
    · intro x hx
      rw [hev, hl3] at hx
      simp only [List.mem_append, List.mem_cons, List.mem_singleton, List.not_mem_nil,
        or_false] at hx
      rcases hx with (hx | hx | hx) | hx
      · exact (hpre x (by simp [hx])).1
      · exact (hpre x (by simp [hx])).1
      · exact (hpre x (by simp [hx])).1
      · rcases hx with hx | hx | hx | hx | hx <;> subst hx <;>
          simp [Event.is_serving, Event.is_push]
  refine ⟨?_, key⟩
  rintro ⟨x, hx, hserving⟩
  by_cases hl : reaches_login e
  · refine ⟨hl, ?_⟩
    intro hrej
    have := (key hl hrej).2.2 x hx
    rw [this] at hserving
    exact Bool.noConfusion hserving
  · have := ((scanner_thread_no_login e rounds hl).2.1 x hx).1
    rw [this] at hserving
    exact Bool.noConfusion hserving

/-- C5, an instance: the subject `CN=eve` is not in the allow-list of
`session_unlisted`; the session exits and the scan engine is not called. -/
theorem scanner_thread_serves_only_accepted_witness :
    (scanner_thread session_unlisted 1).exit = some 0 ∧
      Event.attack_network ∉ (scanner_thread session_unlisted 1).events :=
  ⟨((scanner_thread_serves_only_accepted session_unlisted 1).2
      (by decide) (by decide)).1,
   fun hin => by
    have := ((scanner_thread_serves_only_accepted session_unlisted 1).2
      (by decide) (by decide)).2.2 _ hin
    simp [Event.is_serving] at this⟩

/-- C6 (as stated, refuted): the whole run of `session_unlisted`. The protocol
handshake `comm_init` is the seventh call; the subject of the certificate is read
and `check_client` is called only after it, and the peer is then rejected: the
handshake was made with a peer whose DN was never accepted. -/
theorem scanner_thread_handshake_precedes_check :
    (scanner_thread session_unlisted 1).events =
      [Event.proctitle_set, Event.openvas_signal "SIGCHLD", Event.close 3,
       Event.ovas_scanner_context_attach 4, Event.setsockopt 4,
       Event.arg_set_value_global_socket 5, Event.comm_init 5,
       Event.gnutls_certificate_type_get, Event.gnutls_certificate_get_peers,
       Event.gnutls_x509_crt_import, Event.gnutls_x509_crt_get_dn,
       Event.check_client "CN=eve".toList 0, Event.auth_printf "Bad login attempt !",
       Event.log_write "bad login attempt from", Event.close_stream_connection 5,
       Event.make_em_die "SIGTERM"] := by
  rfl

/-- C6 (amended): in every session the certificate is read and `check_client` is
called only after the protocol handshake: whatever call of the DN extraction or of
`check_client` is in the run, `comm_init` comes before it. In every session that
gets as far as the authentication check the calls come in this order: the opening
calls with the TLS attach, none of which is `comm_init` or reads the certificate;
then `comm_init`; then exactly the gnutls calls that read the certificate type,
the peer certificates and, with a certificate presented, its subject DN; then the
one call of `check_client` on that DN; no certificate is read after it. No serving
call (metadata push, wait for an order, scan engine) is made before `check_client`,
and one is made after it only if `check_client` accepted the DN. A session that
does not get that far makes no serving call and no call of `check_client`. -/
theorem scanner_thread_order (e : SessionEnv) (rounds : Nat) :
    (reaches_login e →
      ∃ l1 l2 l3 : List Event,
        (scanner_thread e rounds).events =
          l1 ++ Event.comm_init e.attach :: l2
            ++ Event.check_client (x509_dname e)
                (check_client (some (x509_dname e)) e.dname_file) :: l3 ∧
        Event.ovas_scanner_context_attach e.soc ∈ l1 ∧
        (∀ x ∈ l1 ++ Event.comm_init e.attach :: l2,
          x.is_serving = false ∧ x.is_check_client = false) ∧
        (∀ x ∈ l3, x.is_check_client = false) ∧
        ((∃ x ∈ l3, x.is_serving = true) →
          check_client (some (x509_dname e)) e.dname_file ≠ 0) ∧
        l2 = [Event.gnutls_certificate_type_get, Event.gnutls_certificate_get_peers]
              ++ (if 0 < e.cert_list_size then
                    [Event.gnutls_x509_crt_import, Event.gnutls_x509_crt_get_dn]
                  else []) ∧
        (∀ x ∈ l1, x.is_dn_extraction = false ∧ x ≠ Event.comm_init e.attach) ∧
        (∀ x ∈ l3, x.is_dn_extraction = false)) ∧
    (¬ reaches_login e →
      ∀ x ∈ (scanner_thread e rounds).events,
        x.is_serving = false ∧ x.is_check_client = false) ∧
    (∀ (pre post : List Event) (x : Event),
      (scanner_thread e rounds).events = pre ++ x :: post →
      (x.is_dn_extraction = true ∨ x.is_check_client = true) →
      Event.comm_init e.attach ∈ pre) := by
  refine ⟨fun hl => ?_, fun hl => (scanner_thread_no_login e rounds hl).2.1, ?_⟩
  · have heq := scanner_thread_opening_exact e rounds hl
    obtain ⟨l3, hev, hcc, hserve, _⟩ :=
      scanner_thread_login_tail e rounds
        (session_opening e ++ Event.comm_init e.attach :: session_dn_calls e)
        (x509_dname e) hl.1
    obtain ⟨l3b, hevb, hdn⟩ :=
      scanner_thread_login_split e rounds
        (session_opening e ++ Event.comm_init e.attach :: session_dn_calls e) (x509_dname e)
    have hsame : l3 = l3b := by
      rw [hev] at hevb
      have := List.append_cancel_left hevb
      exact (List.cons.inj this).2
    refine ⟨session_opening e, session_dn_calls e, l3, by rw [heq, hev],
      (session_opening_calls e).1, ?_, hcc, hserve, rfl, ?_, ?_⟩
    · intro x hx
      simp only [List.mem_append, List.mem_cons] at hx
      rcases hx with hx | hx | hx
      · have := (session_opening_calls e).2 x hx
        exact ⟨this.1, this.2.1⟩
      · subst hx; exact ⟨rfl, rfl⟩
      · have := session_dn_calls_events e x hx
        exact ⟨this.1, this.2.1⟩
    · intro x hx
      have := (session_opening_calls e).2 x hx
      exact ⟨this.2.2.1, this.2.2.2⟩
    · intro x hx
      exact hdn x (hsame ▸ hx)
  · intro pre post x hsplit hx
    by_cases ha : e.attach < 0
    · have hmem : x ∈ (scanner_thread e rounds).events := by
        rw [hsplit]
        simp
      have := scanner_thread_no_attach e rounds ha x hmem
      rcases hx with hx | hx
      · rw [this.1] at hx; exact Bool.noConfusion hx
      · rw [this.2] at hx; exact Bool.noConfusion hx
    · obtain ⟨rest, hrest⟩ := scanner_thread_after_attach e rounds (not_lt.mp ha)
      rw [hrest] at hsplit
      refine mem_before_of_split _ _ _ _ _ _ hsplit ?_ ?_
      · intro hin
        have := (session_opening_calls e).2 x hin
        rcases hx with hx | hx
        · rw [this.2.2.1] at hx; exact Bool.noConfusion hx
        · rw [this.2.1] at hx; exact Bool.noConfusion hx
      · intro hxc
        subst hxc
        rcases hx with hx | hx
        · exact Bool.noConfusion hx
        · exact Bool.noConfusion hx

/-- C6, an instance: the session `session_listed` gets as far as the
authentication check; the subject of the certificate is read in its run, and
`comm_init` comes before that call. -/
theorem scanner_thread_order_witness :
    reaches_login session_listed ∧
    Event.gnutls_x509_crt_get_dn ∈ (scanner_thread session_listed 1).events ∧
    (scanner_thread session_listed 1).events =
      ([Event.proctitle_set, Event.openvas_signal "SIGCHLD", Event.close 3,
        Event.ovas_scanner_context_attach 4, Event.setsockopt 4,
        Event.arg_set_value_global_socket 5, Event.comm_init 5,
        Event.gnutls_certificate_type_get, Event.gnutls_certificate_get_peers,
        Event.gnutls_x509_crt_import])
        ++ Event.gnutls_x509_crt_get_dn :: (scanner_thread session_listed 1).events.drop 11 ∧
    Event.comm_init session_listed.attach ∈
      [Event.proctitle_set, Event.openvas_signal "SIGCHLD", Event.close 3,
        Event.ovas_scanner_context_attach 4, Event.setsockopt 4,
        Event.arg_set_value_global_socket 5, Event.comm_init 5,
        Event.gnutls_certificate_type_get, Event.gnutls_certificate_get_peers,
        Event.gnutls_x509_crt_import] :=
  ⟨by decide,
   by
    obtain ⟨l1, l2, l3, hev, _, _, _, _, hl2, _, _⟩ :=
      (scanner_thread_order session_listed 1).1 (by decide)
    rw [hev, hl2]
    simp [session_listed],
   rfl,
   (scanner_thread_order session_listed 1).2.2 _ _ Event.gnutls_x509_crt_get_dn rfl
    (Or.inl rfl)⟩

/-- The events of an authenticated session and the place of the metadata push in
them. -/
theorem scanner_thread_push_core (e : SessionEnv) (rounds : Nat)
    (hlogin : reaches_login e)
    (hacc : check_client (some (x509_dname e)) e.dname_file ≠ 0) :
    (∃ before : List Event,
      (scanner_thread e rounds).events =
        before ++ [Event.check_client (x509_dname e)
                    (check_client (some (x509_dname e)) e.dname_file),
                   Event.arg_set_value_plugins]
          ++ (if e.comm_init = e.OTP_20 then
                [Event.comm_send_nvt_info, Event.comm_send_preferences,
                 Event.ntp_1x_send_dependencies]
              else [])
          ++ (start_daemon_mode e).events
          ++ (match (start_daemon_mode e).exit with
              | some _ => []
              | none => (wait_loop e rounds).events) ∧
      (∀ x ∈ before, x.is_serving = false)) ∧
    (∀ x ∈ (start_daemon_mode e).events, x.is_push = false) ∧
    (∀ x ∈ (wait_loop e rounds).events, x.is_push = false) ∧
    (Event.comm_send_nvt_info ∈ (scanner_thread e rounds).events ↔ e.comm_init = e.OTP_20) ∧
    (Event.comm_send_preferences ∈ (scanner_thread e rounds).events ↔
      e.comm_init = e.OTP_20) ∧
    (Event.ntp_1x_send_dependencies ∈ (scanner_thread e rounds).events ↔
      e.comm_init = e.OTP_20) := by
  obtain ⟨l1, l2, heq, _, hpre⟩ := scanner_thread_opening e rounds hlogin
  have hev := scanner_thread_login_accepts e rounds (l1 ++ Event.comm_init e.attach :: l2)
    (x509_dname e) hacc
  rw [← heq] at hev
  have hd : ∀ x ∈ (start_daemon_mode e).events, x.is_push = false := by
    intro x hx
    exact is_push_of_not_serving x (start_daemon_mode_events e x hx).1
  have hw : ∀ x ∈ (wait_loop e rounds).events, x.is_push = false :=
    fun x hx => (wait_loop_events e rounds x hx).1
  have hb : ∀ x ∈ l1 ++ Event.comm_init e.attach :: l2, x.is_push = false := by
    intro x hx
    exact is_push_of_not_serving x (hpre x hx).1
  have hmem : ∀ x : Event, x.is_push = true → x ≠ Event.check_client (x509_dname e)
        (check_client (some (x509_dname e)) e.dname_file) → x ≠ Event.arg_set_value_plugins →
      (x ∈ (scanner_thread e rounds).events ↔
        x ∈ (if e.comm_init = e.OTP_20 then
              [Event.comm_send_nvt_info, Event.comm_send_preferences,
               Event.ntp_1x_send_dependencies]
            else [])) := by
    intro x hx hx1 hx2
    rw [hev]
    simp only [List.mem_append, List.mem_cons, List.mem_singleton, List.not_mem_nil, or_false]
    constructor
    · rintro ((((h | h | h) | h) | h) | h)
      · rw [hb x (by simp [h])] at hx; exact Bool.noConfusion hx
      · exact absurd h hx1
      · exact absurd h hx2
      · exact h
      · rw [hd x h] at hx; exact Bool.noConfusion hx
      · split at h
        · simp at h
        · rw [hw x h] at hx; exact Bool.noConfusion hx
    · intro h
      exact Or.inl (Or.inl (Or.inr h))
  refine ⟨⟨l1 ++ Event.comm_init e.attach :: l2, hev, fun x hx => (hpre x hx).1⟩, hd, hw,
    ?_, ?_, ?_⟩
  · rw [hmem Event.comm_send_nvt_info rfl (by simp) (by simp)]
    split_ifs with h <;> simp [h]
  · rw [hmem Event.comm_send_preferences rfl (by simp) (by simp)]
    split_ifs with h <;> simp [h]
  · rw [hmem Event.ntp_1x_send_dependencies rfl (by simp) (by simp)]
    split_ifs with h <;> simp [h]

/-- C9: in every authenticated session (the session got as far as `check_client`
with a non-zero protocol version, and `check_client` accepted the DN) the events
are: what came before, the call of `check_client`, then the three calls of the
metadata push if and only if the protocol version equals `OTP_20`, then the calls
of `start_daemon_mode`, which begin with the closing of the listener socket and
`setsid`, then the serving loop. Each of the three push calls is in the run
exactly when the version is `OTP_20`; for every other version none is made, before
or after entering daemon mode. When `start_daemon_mode` returns (it exits with
status 0 when `/dev/null` cannot be opened and with status 2 when the dump file
cannot be created) the session goes on to serve: in a run observed for at least
one pass, the calls after daemon mode are the wait for an order, the scan engine
and the end of the scan, in this order, and each further pass of a kept-alive
session repeats them without a push. -/
theorem scanner_thread_metadata_push (e : SessionEnv) (rounds : Nat)
    (hlogin : reaches_login e)
    (hacc : check_client (some (x509_dname e)) e.dname_file ≠ 0) :
    (∃ before : List Event,
      (scanner_thread e rounds).events =
        before ++ [Event.check_client (x509_dname e)
                    (check_client (some (x509_dname e)) e.dname_file),
                   Event.arg_set_value_plugins]
          ++ (if e.comm_init = e.OTP_20 then
                [Event.comm_send_nvt_info, Event.comm_send_preferences,
                 Event.ntp_1x_send_dependencies]
              else [])
          ++ (start_daemon_mode e).events
          ++ (match (start_daemon_mode e).exit with
              | some _ => []
              | none => (wait_loop e rounds).events) ∧
      (∀ x ∈ before, x.is_serving = false)) ∧
    (∀ x ∈ (start_daemon_mode e).events, x.is_push = false) ∧
    (∀ x ∈ (wait_loop e rounds).events, x.is_push = false) ∧
    (Event.comm_send_nvt_info ∈ (scanner_thread e rounds).events ↔ e.comm_init = e.OTP_20) ∧
    (Event.comm_send_preferences ∈ (scanner_thread e rounds).events ↔
      e.comm_init = e.OTP_20) ∧
    (Event.ntp_1x_send_dependencies ∈ (scanner_thread e rounds).events ↔
      e.comm_init = e.OTP_20) ∧
    ((∃ tail : List Event,
        (start_daemon_mode e).events =
          Event.close e.global_iana_socket :: Event.setsid :: tail) ∧
      Event.open_file "/dev/null" ∈ (start_daemon_mode e).events) ∧
    ((e.null_fd < 0 → (start_daemon_mode e).exit = some 0) ∧
      (0 ≤ e.null_fd → arg_get_value e.global_preferences "dumpfile" = some "-" →
        (start_daemon_mode e).exit = none) ∧
      (0 ≤ e.null_fd → 0 ≤ e.dump_fd → (start_daemon_mode e).exit = none) ∧
      (0 ≤ e.null_fd → e.dump_fd < 0 →
        (∀ v, arg_get_value e.global_preferences "dumpfile" = some v → v ≠ "-") →
        (arg_get_value e.global_preferences "dumpfile" = none →
          e.OPENVASSD_DEBUGMSG ≠ "-") →
        (start_daemon_mode e).exit = some 2)) ∧
    (∀ code : Int, (start_daemon_mode e).exit = some code →
      (scanner_thread e rounds).exit = some code) ∧
    ((start_daemon_mode e).exit = none →
      (scanner_thread e rounds).exit = (wait_loop e rounds).exit) ∧
    (∀ n : Nat,
      (wait_loop e (n + 1)).events =
        [Event.comm_wait_order, Event.preferences_reset_cache,
         Event.ntp_1x_timestamp_scan_starts, Event.attack_network,
         Event.ntp_1x_timestamp_scan_ends, Event.comm_terminate]
          ++ (if (arg_get_value e.prefs "ntp_keep_communication_alive").isSome = true then
                Event.log_write "Kept alive connection" :: (wait_loop e n).events
              else [Event.close_stream_connection e.attach, Event.make_em_die "SIGTERM"]) ∧
      (wait_loop e (n + 1)).exit =
        (if (arg_get_value e.prefs "ntp_keep_communication_alive").isSome = true then
          (wait_loop e n).exit
        else some 0)) ∧
    ((start_daemon_mode e).exit = none → 0 < rounds →
      ∃ before tail : List Event,
        (scanner_thread e rounds).events =
          before ++ [Event.check_client (x509_dname e)
                      (check_client (some (x509_dname e)) e.dname_file),
                     Event.arg_set_value_plugins]
            ++ (if e.comm_init = e.OTP_20 then
                  [Event.comm_send_nvt_info, Event.comm_send_preferences,
                   Event.ntp_1x_send_dependencies]
                else [])
            ++ (start_daemon_mode e).events
            ++ Event.comm_wait_order :: Event.preferences_reset_cache ::
                Event.ntp_1x_timestamp_scan_starts :: Event.attack_network ::
                Event.ntp_1x_timestamp_scan_ends :: Event.comm_terminate :: tail ∧
        (∀ x ∈ before, x.is_serving = false) ∧
        (∀ x ∈ tail, x.is_push = false)) := by
  obtain ⟨⟨before, hev, hbefore⟩, c2, c3, c4, c5, c6⟩ :=
    scanner_thread_push_core e rounds hlogin hacc
  have hrun := scanner_thread_opening_exact e rounds hlogin
  have hexit : ∀ code : Int, (start_daemon_mode e).exit = some code →
      (scanner_thread e rounds).exit = some code := by
    intro code hc
    rw [hrun]
    unfold scanner_thread_login
    simp only [if_neg hacc]
    split
    · rename_i c hx
      rw [hc] at hx
      exact hx ▸ rfl
    · rename_i hx
      rw [hc] at hx
      exact Option.noConfusion hx
  have hcont : (start_daemon_mode e).exit = none →
      (scanner_thread e rounds).exit = (wait_loop e rounds).exit := by
    intro hn
    rw [hrun]
    unfold scanner_thread_login
    simp only [if_neg hacc]
    split
    · rename_i c hx
      rw [hn] at hx
      exact Option.noConfusion hx
    · rfl
  refine ⟨⟨before, hev, hbefore⟩, c2, c3, c4, c5, c6, start_daemon_mode_enters e,
    start_daemon_mode_outcome e, hexit, hcont, fun n => wait_loop_succ e n hlogin.1, ?_⟩
  intro hn hr
  obtain ⟨n, rfl⟩ : ∃ n, rounds = n + 1 := ⟨rounds - 1, by omega⟩
  refine ⟨before, (if (arg_get_value e.prefs "ntp_keep_communication_alive").isSome = true then
      Event.log_write "Kept alive connection" :: (wait_loop e n).events
    else [Event.close_stream_connection e.attach, Event.make_em_die "SIGTERM"]), ?_, hbefore, ?_⟩
  · rw [hev, hn]
    simp only
    rw [(wait_loop_succ e n hlogin.1).1]
    simp
  · intro x hx
    apply c3 x
    rw [(wait_loop_succ e n hlogin.1).1]
    exact List.mem_append_right _ hx

/-- C9, instances: `session_listed` opens with `OTP_20` and gets the push;
`session_modern` opens with another code and gets none; both enter daemon mode,
wait for an order and run the scan engine. -/
theorem scanner_thread_metadata_push_witness :
    (reaches_login session_listed ∧
      check_client (some (x509_dname session_listed)) session_listed.dname_file ≠ 0) ∧
    Event.comm_send_nvt_info ∈ (scanner_thread session_listed 1).events ∧
    Event.comm_send_nvt_info ∉ (scanner_thread session_modern 1).events ∧
    (scanner_thread session_modern 1).exit = some 0 ∧
    (scanner_thread session_modern 1).events =
      [Event.proctitle_set, Event.openvas_signal "SIGCHLD", Event.close 3,
       Event.ovas_scanner_context_attach 4, Event.setsockopt 4,
       Event.arg_set_value_global_socket 5, Event.comm_init 5,
       Event.gnutls_certificate_type_get, Event.gnutls_certificate_get_peers,
       Event.gnutls_x509_crt_import, Event.gnutls_x509_crt_get_dn,
       Event.check_client "CN=admin".toList 1, Event.arg_set_value_plugins,
       Event.close 3, Event.setsid, Event.open_file "/dev/tty", Event.open_file "/dev/null",
       Event.dup2 6 0, Event.close 6,
       Event.comm_wait_order, Event.preferences_reset_cache,
       Event.ntp_1x_timestamp_scan_starts, Event.attack_network,
       Event.ntp_1x_timestamp_scan_ends, Event.comm_terminate,
       Event.close_stream_connection 5, Event.make_em_die "SIGTERM"] :=
  ⟨⟨by decide, by decide⟩,
   (scanner_thread_metadata_push session_listed 1
      (by decide) (by decide)).2.2.2.1.mpr rfl,
   fun hin => absurd
    ((scanner_thread_metadata_push session_modern 1
      (by decide) (by decide)).2.2.2.1.mp hin)
    (by decide),
   ((scanner_thread_metadata_push session_modern 1
      (by decide) (by decide)).2.2.2.2.2.2.2.2.2.1 rfl).trans rfl,
   rfl⟩

/-! ## Startup: claims on `main` -/

theorem init_network_bind (e : MainEnv) (port : Int) (h : e.socket ≠ -1) :
    Event.bind port ∈ (init_network e port).events := by
  unfold init_network
  rw [if_neg h]
  split_ifs <;> simp

theorem init_openvassd_events (e : MainEnv) (port : Int) (config_file : String)
    (stop_early : Int) (dont_fork : Bool) :
    Event.printf "Invalid port specification." ∉
        (init_openvassd e port config_file 1 stop_early dont_fork).events ∧
      (stop_early = 0 → e.socket ≠ -1 →
        Event.bind port ∈ (init_openvassd e port config_file 1 stop_early dont_fork).events) := by
  constructor
  · unfold init_openvassd init_network
    simp only
    split_ifs <;> simp
  · intro h0 hs
    have hb := init_network_bind e port hs
    unfold init_openvassd
    simp only [h0, ne_eq, one_ne_zero, not_false_eq_true, and_self, if_true]
    split <;> simp [hb]

/-- The run of `main` when the check of `--port` fails. -/
theorem main_invalid_port (c : CmdLine) (e : MainEnv) (p : String) (hp : c.port = some p)
    (hbad : e.atoi p ≤ 0 ∨ 65536 ≤ e.atoi p) :
    (main c e).exit.isSome = true ∧ (∀ x ∈ (main c e).events, x.is_network = false) ∧
    (reaches_port_check c e →
      (main c e).exit = some 1 ∧
      ∃ before : List Event, (main c e).events =
        before ++ [Event.printf "Invalid port specification.",
                   Event.printf "Please use --help for more information."]) := by
  have hcond : c.port.isSome = true ∧ (e.atoi p ≤ 0 ∨ e.atoi p ≥ 65536) := by
    simp [hp, hbad]
  unfold main reaches_port_check
  simp only [hp]
  by_cases h1 : c.parse_ok = false
  · simp [h1, Event.is_network]
  · rw [if_neg h1]
    by_cases h2 : c.print_sysconfdir = true
    · simp [h2, Event.is_network]
    · rw [if_neg h2]
      by_cases h3 : e.setenv = -1
      · simp [h3, Event.is_network]
      · rw [if_neg h3]
        cases ha : c.address with
        | none =>
          simp only [Bool.false_eq_true, if_false]
          rw [if_pos (by simpa [hp] using hcond)]
          refine ⟨rfl, by simp [Event.is_network], fun _ => ⟨rfl, ⟨_, rfl⟩⟩⟩
        | some a =>
          by_cases h4 : e.getaddrinfo a = 0
          · simp only [h4, ne_eq, not_true_eq_false, decide_False, Bool.false_eq_true, if_false]
            rw [if_pos (by simpa [hp] using hcond)]
            refine ⟨rfl, by simp [Event.is_network], fun _ => ⟨rfl, ⟨_, rfl⟩⟩⟩
          · simp [h4, Event.is_network]

/-- The run of `main` when the check of `--port` passes, with `port` the scanner
port: the integer read from `--port`, or 9391. -/
theorem main_valid_port (c : CmdLine) (e : MainEnv) (port : Int)
    (hport : port = match c.port with
      | some p => e.atoi p
      | none => 9391)
    (hok : c.port.isSome = true → 1 ≤ port ∧ port ≤ 65535)
    (hr : reaches_port_check c e) :
    Event.printf "Invalid port specification." ∉ (main c e).events ∧
    (c.display_version = false →
      Event.arg_add_value_scanner_port port ∈ (main c e).events ∧
      (c.print_specs = false → e.socket ≠ -1 → Event.bind port ∈ (main c e).events)) := by
  obtain ⟨h1, h2, h3, h4⟩ := hr
  have hcond : ¬ (c.port.isSome = true ∧ (port ≤ 0 ∨ port ≥ 65536)) := by
    rintro ⟨hs, hb⟩
    have := hok hs
    omega
  have haddr : (match c.address with
      | some a => decide (e.getaddrinfo a ≠ 0)
      | none => false) = false := by
    cases ha : c.address with
    | none => rfl
    | some a =>
      rw [ha] at h4
      simp [h4]
  unfold main
  simp only [h1, h2, h3, haddr, ← hport, Bool.true_eq_false, Bool.false_eq_true, if_false,
    if_neg hcond]
  by_cases hv : c.display_version = true
  · rw [if_pos hv]
    constructor
    · cases c.address <;> simp
    · intro hf
      rw [hf] at hv
      exact Bool.noConfusion hv
  · rw [if_neg hv]
    obtain ⟨g1, g2⟩ := init_openvassd_events e port
      (match c.config_file with
        | some f => f
        | none => e.OPENVASSD_CONF) (if c.print_specs = true then 2 else 0) c.dont_fork
    refine ⟨?_, fun _ => ⟨by simp, fun hs hsock => ?_⟩⟩
    · simp only [List.mem_append, not_or]
      refine ⟨?_, g1⟩
      cases c.address <;> split_ifs <;> simp
    · have := g2 (by simp [hs]) hsock
      simp only [List.mem_append]
      exact Or.inr this

/-- A run that another option ends before the port is looked at: with
`--sysconfdir --port=0`, `main` prints the configuration directory and exits with
status 0; `atoi` is not called on the port. -/
theorem main_invalid_port_exit_zero :
    env_ok.atoi "0" = 0 ∧
      main cmdline_sysconfdir_port0 env_ok =
        ⟨[Event.proctitle_init, Event.g_option_context_parse, Event.g_print "/etc"], some 0⟩ :=
  ⟨by decide, rfl⟩

/-- C7: let `n` be the integer `atoi` reads from the `--port` argument, in a run of
`main` that gets as far as the check of the port (the options were parsed, and
neither `--sysconfdir`, a failure of `setenv` nor an invalid `--listen` address
ended the run before). With `1 ≤ n ≤ 65535` no usage error is printed and `n` is
accepted as the scanner port: unless `--version` ends the run, `n` is stored as
`scanner_port` and is the port `init_network` binds. With `n ≤ 0` or `n ≥ 65536`
the usage error is printed last and the exit status is 1. With such an `n` the
process exits during startup and no socket is created or bound (`bpf_server` and
`init_network` are not reached); this holds in every run, also one ended earlier.
Without `--port` the scanner port is 9391. -/
theorem main_port_check (c : CmdLine) (e : MainEnv) :
    (∀ p, c.port = some p → (e.atoi p ≤ 0 ∨ 65536 ≤ e.atoi p) →
      (main c e).exit.isSome = true ∧ ∀ x ∈ (main c e).events, x.is_network = false) ∧
    (reaches_port_check c e →
      (∀ p, c.port = some p → (e.atoi p ≤ 0 ∨ 65536 ≤ e.atoi p) →
        (main c e).exit = some 1 ∧
        ∃ before : List Event, (main c e).events =
          before ++ [Event.printf "Invalid port specification.",
                     Event.printf "Please use --help for more information."]) ∧
      (∀ p, c.port = some p → 1 ≤ e.atoi p → e.atoi p ≤ 65535 →
        Event.printf "Invalid port specification." ∉ (main c e).events ∧
        (c.display_version = false →
          Event.arg_add_value_scanner_port (e.atoi p) ∈ (main c e).events ∧
          (c.print_specs = false → e.socket ≠ -1 →
            Event.bind (e.atoi p) ∈ (main c e).events))) ∧
      (c.port = none →
        Event.printf "Invalid port specification." ∉ (main c e).events ∧
        (c.display_version = false →
          Event.arg_add_value_scanner_port 9391 ∈ (main c e).events ∧
          (c.print_specs = false → e.socket ≠ -1 →
            Event.bind 9391 ∈ (main c e).events)))) := by
  refine ⟨fun p hp hbad => ⟨(main_invalid_port c e p hp hbad).1,
    (main_invalid_port c e p hp hbad).2.1⟩, fun hr => ⟨fun p hp hbad =>
      (main_invalid_port c e p hp hbad).2.2 hr, fun p hp h1 h2 => ?_, fun hp => ?_⟩⟩
  · exact main_valid_port c e (e.atoi p) (by rw [hp]) (fun _ => ⟨h1, h2⟩) hr
  · exact main_valid_port c e 9391 (by rw [hp]) (fun hs => by simp [hp] at hs) hr

/-- C7, instances: the three command lines get as far as the port check;
`--port=70000` ends the startup with status 1, `--port=9392` binds port 9392, and
without `--port` the port bound is 9391. -/
theorem main_port_check_witness :
    reaches_port_check (cmdline_port (some "70000")) env_ok ∧
    (main (cmdline_port (some "70000")) env_ok).exit = some 1 ∧
    Event.bind 9392 ∈ (main (cmdline_port (some "9392")) env_ok).events ∧
    Event.bind 9391 ∈ (main (cmdline_port none) env_ok).events :=
  ⟨by decide,
   (((main_port_check (cmdline_port (some "70000")) env_ok).2
        (by decide)).1 "70000" rfl (Or.inr (by decide))).1,
   ((((main_port_check (cmdline_port (some "9392")) env_ok).2
        (by decide)).2.1 "9392" rfl (by decide) (by decide)).2
      rfl).2 rfl (by decide),
   ((((main_port_check (cmdline_port none) env_ok).2
        (by decide)).2.2 rfl).2 rfl).2 rfl (by decide)⟩

/-! ## The TLS context: claims on `init_ssl_ctx` -/

/-- C8 (as stated, refuted): the preferences name the three credential files and
do not hold `force_pubkey_auth`; `init_ssl_ctx` calls the constructor with the
flag `force_pubkey_auth` false. -/
theorem init_ssl_ctx_absent_pref_flag_false :
    arg_get_value prefs_credentials "force_pubkey_auth" = none ∧
      (init_ssl_ctx ssl_env_ok prefs_credentials none).run.events =
        [Event.openvas_SSL_init,
         Event.ovas_scanner_context_new
           ⟨Encaps.TLSv1, "cert.pem", "key.pem", none, "ca.pem", false⟩] :=
  ⟨by decide, rfl⟩

/-- C8 (amended): whenever `init_ssl_ctx` calls the TLS context constructor, the
flag `force_pubkey_auth` it passes is true if and only if the preference
`force_pubkey_auth` is present with a value other than `no`; it is false when the
preference is absent and when it is `no`. The constructor is called whenever the
library initialises, no context exists yet and the three credential files are
named in the preferences. -/
theorem init_ssl_ctx_force_pubkey_auth (e : SslEnv) (prefs : arglist)
    (ctx : Option Nat) :
    (∀ args : CtxArgs,
      Event.ovas_scanner_context_new args ∈ (init_ssl_ctx e prefs ctx).run.events →
      (args.force_pubkey_auth = true ↔
        ∃ str, arg_get_value prefs "force_pubkey_auth" = some str ∧ str ≠ "no") ∧
      (arg_get_value prefs "force_pubkey_auth" = none → args.force_pubkey_auth = false) ∧
      (arg_get_value prefs "force_pubkey_auth" = some "no" →
        args.force_pubkey_auth = false)) ∧
    (0 ≤ e.openvas_SSL_init → ctx = none →
      (e.preferences_get_string prefs "ca_file").isSome = true →
      (e.preferences_get_string prefs "cert_file").isSome = true →
      (e.preferences_get_string prefs "key_file").isSome = true →
      ∃ args : CtxArgs,
        Event.ovas_scanner_context_new args ∈ (init_ssl_ctx e prefs ctx).run.events) := by
  constructor
  · intro args hin
    unfold init_ssl_ctx at hin
    have hmsg : ∀ v : Option String,
        Event.ovas_scanner_context_new args ∉ (ssl_ver_to_encaps v).2 := by
      intro v
      unfold ssl_ver_to_encaps
      split
      · simp
      · split_ifs <;> simp
    split_ifs at hin
    · simp at hin
    · split at hin
      · simp at hin
      · simp only at hin
        split at hin
        · simp [hmsg] at hin
        · split at hin
          · simp [hmsg] at hin
          · split at hin
            · simp [hmsg] at hin
            · have hargs : args.force_pubkey_auth =
                  (match arg_get_value prefs "force_pubkey_auth" with
                    | none => false
                    | some str => decide (str ≠ "no")) := by
                split at hin <;> simp [hmsg] at hin <;> rw [hin] <;>
                  cases arg_get_value prefs "force_pubkey_auth" <;> simp
              rw [hargs]
              cases hv : arg_get_value prefs "force_pubkey_auth" with
              | none => simp
              | some str => simp
  · intro h0 hc hca hcert hkey
    subst hc
    obtain ⟨ca, hca⟩ := Option.isSome_iff_exists.mp hca
    obtain ⟨cert, hcert⟩ := Option.isSome_iff_exists.mp hcert
    obtain ⟨key, hkey⟩ := Option.isSome_iff_exists.mp hkey
    unfold init_ssl_ctx
    simp only [if_neg (not_lt.mpr h0), hca, hcert, hkey]
    split
    · exact ⟨_, List.mem_append_right _ (List.mem_cons_self _ _)⟩
    · exact ⟨_, List.mem_append_right _ (List.mem_cons_self _ _)⟩

/-- C8, an instance: with `force_pubkey_auth` set to `yes` the constructor is
called with the flag true, and the preference is present and other than `no`. -/
theorem init_ssl_ctx_force_pubkey_auth_witness :
    Event.ovas_scanner_context_new
        ⟨Encaps.TLSv1, "cert.pem", "key.pem", none, "ca.pem", true⟩ ∈
      (init_ssl_ctx ssl_env_ok (("force_pubkey_auth", "yes") :: prefs_credentials)
        none).run.events ∧
    ∃ str, arg_get_value (("force_pubkey_auth", "yes") :: prefs_credentials)
      "force_pubkey_auth" = some str ∧ str ≠ "no" :=
  ⟨List.mem_cons_of_mem _ (List.mem_cons_self _ _),
   ((init_ssl_ctx_force_pubkey_auth ssl_env_ok
      (("force_pubkey_auth", "yes") :: prefs_credentials) none).1
      ⟨Encaps.TLSv1, "cert.pem", "key.pem", none, "ca.pem", true⟩
      (List.mem_cons_of_mem _ (List.mem_cons_self _ _))).1.mp rfl⟩

/-! ## The global tunables: claims on `set_globals_from_preferences` -/

/-- C10 (as stated, refuted): the globals hold 20 hosts and 5 checks (set from
earlier preferences) and the new preferences name neither tunable; after
`set_globals_from_preferences` the globals still hold 20 and 5, not the defaults
15 and 10. -/
theorem set_globals_absent_keeps_previous :
    arg_get_value [("logfile", "log")] "max_hosts" = none ∧
    arg_get_value [("logfile", "log")] "max_checks" = none ∧
    (set_globals_from_preferences atoi_libc [("logfile", "log")]
      ⟨20, 5, [("max_hosts", "20"), ("max_checks", "5")]⟩).global_max_hosts = 20 ∧
    (set_globals_from_preferences atoi_libc [("logfile", "log")]
      ⟨20, 5, [("max_hosts", "20"), ("max_checks", "5")]⟩).global_max_checks = 5 := by
  decide

/-- C10 (amended): after `set_globals_from_preferences (prefs)`, for every
preferences value and every previous value of the globals: `global_max_hosts` is
the integer value of the preference `max_hosts` when it is present and positive,
the default 15 when it is present and not positive, and its previous value when
the preference is absent; likewise `global_max_checks` with `max_checks` and the
default 10. From the initial values (the first call at startup) an absent
preference therefore leaves 15 and 10. The preferences become the global
preferences. -/
theorem set_globals_from_preferences_spec (atoi : String → Int) (prefs : arglist)
    (g : Globals) :
    (∀ s, arg_get_value prefs "max_hosts" = some s → 0 < atoi s →
      (set_globals_from_preferences atoi prefs g).global_max_hosts = atoi s) ∧
    (∀ s, arg_get_value prefs "max_hosts" = some s → atoi s ≤ 0 →
      (set_globals_from_preferences atoi prefs g).global_max_hosts = 15) ∧
    (arg_get_value prefs "max_hosts" = none →
      (set_globals_from_preferences atoi prefs g).global_max_hosts = g.global_max_hosts) ∧
    (∀ s, arg_get_value prefs "max_checks" = some s → 0 < atoi s →
      (set_globals_from_preferences atoi prefs g).global_max_checks = atoi s) ∧
    (∀ s, arg_get_value prefs "max_checks" = some s → atoi s ≤ 0 →
      (set_globals_from_preferences atoi prefs g).global_max_checks = 10) ∧
    (arg_get_value prefs "max_checks" = none →
      (set_globals_from_preferences atoi prefs g).global_max_checks = g.global_max_checks) ∧
    (arg_get_value prefs "max_hosts" = none →
      (set_globals_from_preferences atoi prefs Globals.initial).global_max_hosts = 15) ∧
    (arg_get_value prefs "max_checks" = none →
      (set_globals_from_preferences atoi prefs Globals.initial).global_max_checks = 10) ∧
    (set_globals_from_preferences atoi prefs g).global_preferences = prefs := by
  unfold set_globals_from_preferences
  refine ⟨?_, ?_, ?_, ?_, ?_, ?_, ?_, ?_, rfl⟩
  · intro s hs hpos
    simp only [hs]
    rw [if_neg (not_le.mpr hpos)]
  · intro s hs hle
    simp only [hs]
    rw [if_pos hle]
  · intro hn
    simp only [hn]
  · intro s hs hpos
    simp only [hs]
    rw [if_neg (not_le.mpr hpos)]
  · intro s hs hle
    simp only [hs]
    rw [if_pos hle]
  · intro hn
    simp only [hn]
  · intro hn
    simp only [hn]
    rfl
  · intro hn
    simp only [hn]
    rfl

/-- C10, instances: `max_hosts = 30` is taken over, `max_checks = 0` gives the
default 10, whatever the globals held before. -/
theorem set_globals_from_preferences_spec_witness :
    (set_globals_from_preferences atoi_libc [("max_hosts", "30"), ("max_checks", "0")]
      ⟨20, 5, []⟩).global_max_hosts = 30 ∧
    (set_globals_from_preferences atoi_libc [("max_hosts", "30"), ("max_checks", "0")]
      ⟨20, 5, []⟩).global_max_checks = 10 :=
  ⟨(set_globals_from_preferences_spec atoi_libc [("max_hosts", "30"), ("max_checks", "0")]
      ⟨20, 5, []⟩).1 "30" (by decide) (by decide),
   (set_globals_from_preferences_spec atoi_libc [("max_hosts", "30"), ("max_checks", "0")]
      ⟨20, 5, []⟩).2.2.2.2.1 "0" (by decide) (by decide)⟩

/-! ## The listener: claims on the loop of `main_loop` and on reload -/

theorem main_loop_cons_continue (e : LoopEnv) (es : List LoopEnv) (s : Listener)
    (h : (main_loop_accept e).exit = none) :
    (main_loop (e :: es) s).1.events =
      (main_loop_checkpoint e (deliver_SIGHUPs e.sighups_before s)).1
        ++ (main_loop_accept e).events ++ (main_loop es (main_loop_next e s)).1.events ∧
    (main_loop (e :: es) s).1.exit = (main_loop es (main_loop_next e s)).1.exit ∧
    (main_loop (e :: es) s).2 = (main_loop es (main_loop_next e s)).2 := by
  simp [main_loop, h]

theorem main_loop_cons_exit (e : LoopEnv) (es : List LoopEnv) (s : Listener) (code : Int)
    (h : (main_loop_accept e).exit = some code) :
    (main_loop (e :: es) s).1.events =
      (main_loop_checkpoint e (deliver_SIGHUPs e.sighups_before s)).1
        ++ (main_loop_accept e).events ∧
    (main_loop (e :: es) s).1.exit = some code := by
  simp [main_loop, h]

/-- C11 (as stated, refuted): a turn of the loop in which `accept` succeeds and
`inet_ntop` returns NULL. The listener process exits with status 0 right after
`inet_ntop`; the turn given after it is never run. -/
theorem main_loop_inet_ntop_failure_exits :
    main_loop [{ loop_env_ok with inet_ntop_null := true }, loop_env_ok] listener_idle =
      (⟨[ListenerEvent.wait_for_children1, ListenerEvent.accept true,
         ListenerEvent.inet_ntop true], some 0⟩, listener_idle) := by
  decide

/-- C11 (amended): in every turn of the listener loop, an `accept` error (-1) and a
spawn failure (`create_process < 0`) do not end the listener: the turn ends
without exit and the loop goes on with the next turn; on an `accept` error nothing
more is called in the turn, and on a spawn failure the failure is logged, the
process sleeps 2 seconds and still closes its copy of the connection socket. When
`inet_ntop` returns NULL the listener process exits with status 0 and no further
turn is run. -/
theorem main_loop_transient_failures (e : LoopEnv) (es : List LoopEnv) (s : Listener) :
    (e.accept = -1 →
      main_loop_accept e =
        ⟨[ListenerEvent.wait_for_children1, ListenerEvent.accept e.ai_family_inet], none⟩ ∧
      (main_loop (e :: es) s).1.exit = (main_loop es (main_loop_next e s)).1.exit ∧
      (main_loop (e :: es) s).1.events =
        (main_loop_checkpoint e (deliver_SIGHUPs e.sighups_before s)).1
          ++ (main_loop_accept e).events ++ (main_loop es (main_loop_next e s)).1.events) ∧
    (e.accept ≠ -1 → e.inet_ntop_null = false → e.create_process < 0 →
      (main_loop_accept e).exit = none ∧
      (∃ before : List ListenerEvent, (main_loop_accept e).events =
        before ++ [ListenerEvent.create_process,
                   ListenerEvent.log_write "Could not fork - client won't be served",
                   ListenerEvent.sleep 2, ListenerEvent.close e.accept,
                   ListenerEvent.arg_free]) ∧
      (main_loop (e :: es) s).1.exit = (main_loop es (main_loop_next e s)).1.exit ∧
      (main_loop (e :: es) s).1.events =
        (main_loop_checkpoint e (deliver_SIGHUPs e.sighups_before s)).1
          ++ (main_loop_accept e).events ++ (main_loop es (main_loop_next e s)).1.events) ∧
    (e.accept ≠ -1 → e.inet_ntop_null = true →
      main_loop_accept e =
        ⟨[ListenerEvent.wait_for_children1, ListenerEvent.accept e.ai_family_inet,
          ListenerEvent.inet_ntop e.ai_family_inet], some 0⟩ ∧
      (main_loop (e :: es) s).1.exit = some 0 ∧
      (main_loop (e :: es) s).1.events =
        (main_loop_checkpoint e (deliver_SIGHUPs e.sighups_before s)).1
          ++ (main_loop_accept e).events) := by
  refine ⟨fun h => ?_, fun h1 h2 h3 => ?_, fun h1 h2 => ?_⟩
  · have ha : main_loop_accept e =
        ⟨[ListenerEvent.wait_for_children1, ListenerEvent.accept e.ai_family_inet], none⟩ := by
      simp [main_loop_accept, h]
    have hx : (main_loop_accept e).exit = none := by rw [ha]
    obtain ⟨g1, g2, _⟩ := main_loop_cons_continue e es s hx
    exact ⟨ha, g2, g1⟩
  · have hx : (main_loop_accept e).exit = none := by
      simp [main_loop_accept, h1, h2]
    obtain ⟨g1, g2, _⟩ := main_loop_cons_continue e es s hx
    refine ⟨hx, ⟨[ListenerEvent.wait_for_children1, ListenerEvent.accept e.ai_family_inet,
      ListenerEvent.inet_ntop e.ai_family_inet, ListenerEvent.arg_add_value "global_socket",
      ListenerEvent.arg_add_value "plugins", ListenerEvent.arg_add_value "preferences",
      ListenerEvent.arg_add_value "client_address", ListenerEvent.arg_add_value "family"], ?_⟩,
      g2, g1⟩
    simp [main_loop_accept, h1, h2, h3]
  · have ha : main_loop_accept e =
        ⟨[ListenerEvent.wait_for_children1, ListenerEvent.accept e.ai_family_inet,
          ListenerEvent.inet_ntop e.ai_family_inet], some 0⟩ := by
      simp [main_loop_accept, h1, h2]
    have hx : (main_loop_accept e).exit = some 0 := by rw [ha]
    obtain ⟨g1, g2⟩ := main_loop_cons_exit e es s 0 hx
    exact ⟨ha, g2, g1⟩

/-- C11, instances: a turn with an `accept` error and a turn with a spawn failure
are followed by the next turn, in which a client is served. -/
theorem main_loop_transient_failures_witness :
    (main_loop [{ loop_env_ok with accept := -1 }, loop_env_ok] listener_idle).1.exit = none ∧
    ListenerEvent.create_process ∈
      (main_loop [{ loop_env_ok with accept := -1 }, loop_env_ok] listener_idle).1.events ∧
    (main_loop_accept { loop_env_ok with create_process := -1 }).exit = none :=
  ⟨((main_loop_transient_failures { loop_env_ok with accept := -1 } [loop_env_ok]
      listener_idle).1 rfl).2.1.trans (by decide),
   by
    rw [((main_loop_transient_failures { loop_env_ok with accept := -1 } [loop_env_ok]
      listener_idle).1 rfl).2.2]
    decide,
   ((main_loop_transient_failures { loop_env_ok with create_process := -1 } [] listener_idle).2.1
      (by decide) rfl (by decide)).1⟩

/-- The run of `main` when `getaddrinfo` rejects the `--listen` address and the
startup got as far as that check. -/
theorem main_invalid_listen (c : CmdLine) (e : MainEnv) (a : String)
    (ha : c.address = some a) (hbad : e.getaddrinfo a ≠ 0)
    (h1 : c.parse_ok = true) (h2 : c.print_sysconfdir = false) (h3 : e.setenv ≠ -1) :
    main c e =
      ⟨[Event.proctitle_init, Event.g_option_context_parse, Event.setenv_TZ, Event.tzset,
        Event.getaddrinfo a, Event.printf "Invalid IP address.",
        Event.printf "Please use --help for more information."], some 0⟩ := by
  unfold main
  simp [h1, h2, h3, ha, hbad]

/-- C13 (the code at the failing input): with `--listen=localhost`, which
`getaddrinfo` rejects as not numeric, `main` prints the message on the invalid
address and calls `exit (0)`: the exit status is 0. No socket was opened. -/
theorem main_invalid_listen_exit_zero :
    env_numeric_host.getaddrinfo "localhost" ≠ 0 ∧
    main (cmdline_listen "localhost") env_numeric_host =
      ⟨[Event.proctitle_init, Event.g_option_context_parse, Event.setenv_TZ, Event.tzset,
        Event.getaddrinfo "localhost", Event.printf "Invalid IP address.",
        Event.printf "Please use --help for more information."], some 0⟩ :=
  ⟨by decide, rfl⟩

/-! ## The TLS context: `ssl_ver_to_encaps` and idempotence -/

theorem strcasecmp_eq_trans (v a b : String) (ha : strcasecmp_eq v a = true)
    (hb : strcasecmp_eq v b = true) : strcasecmp_eq a b = true := by
  unfold strcasecmp_eq at *
  simp only [decide_eq_true_eq] at *
  rw [← ha, ← hb]

/-- C14: `ssl_ver_to_encaps` is a total function without exit: for NULL and for
every string it returns one of the three codes. Comparing without regard to case,
it returns SSLv3 for `SSLv3`, SSLv23 for `SSLv23`, and TLSv1 for `TLSv1`, for
`SSLv2`, for NULL and for every string that is none of the four. In
`init_ssl_ctx`, when the preference `ssl_version` is absent or empty, the code
passed to the constructor is TLSv1. -/
theorem ssl_ver_to_encaps_spec :
    (∀ v : Option String, (ssl_ver_to_encaps v).1 = Encaps.SSLv23 ∨
      (ssl_ver_to_encaps v).1 = Encaps.SSLv3 ∨ (ssl_ver_to_encaps v).1 = Encaps.TLSv1) ∧
    (ssl_ver_to_encaps none).1 = Encaps.TLSv1 ∧
    (∀ v : String, strcasecmp_eq v "SSLv3" = true →
      (ssl_ver_to_encaps (some v)).1 = Encaps.SSLv3) ∧
    (∀ v : String, strcasecmp_eq v "SSLv23" = true →
      (ssl_ver_to_encaps (some v)).1 = Encaps.SSLv23) ∧
    (∀ v : String, strcasecmp_eq v "TLSv1" = true →
      (ssl_ver_to_encaps (some v)).1 = Encaps.TLSv1) ∧
    (∀ v : String, strcasecmp_eq v "SSLv2" = true →
      (ssl_ver_to_encaps (some v)).1 = Encaps.TLSv1) ∧
    (∀ v : String, strcasecmp_eq v "SSLv2" = false → strcasecmp_eq v "SSLv3" = false →
      strcasecmp_eq v "SSLv23" = false → strcasecmp_eq v "TLSv1" = false →
      (ssl_ver_to_encaps (some v)).1 = Encaps.TLSv1) ∧
    ((ssl_ver_to_encaps (some "sslv3")).1 = Encaps.SSLv3 ∧
      (ssl_ver_to_encaps (some "SSLV23")).1 = Encaps.SSLv23 ∧
      (ssl_ver_to_encaps (some "tlsV1")).1 = Encaps.TLSv1 ∧
      (ssl_ver_to_encaps (some "sslV2")).1 = Encaps.TLSv1 ∧
      (ssl_ver_to_encaps (some "TLSv1.2")).1 = Encaps.TLSv1) ∧
    (∀ (e : SslEnv) (prefs : arglist) (ctx : Option Nat) (args : CtxArgs),
      (e.preferences_get_string prefs "ssl_version" = none ∨
        e.preferences_get_string prefs "ssl_version" = some "") →
      Event.ovas_scanner_context_new args ∈ (init_ssl_ctx e prefs ctx).run.events →
      args.encaps = Encaps.TLSv1) := by
  have hne : ∀ (v a b : String), strcasecmp_eq a b = false → strcasecmp_eq v a = true →
      strcasecmp_eq v b = false := by
    intro v a b hab hva
    cases hvb : strcasecmp_eq v b with
    | false => rfl
    | true =>
      have := strcasecmp_eq_trans v a b hva hvb
      rw [hab] at this
      exact Bool.noConfusion this
  refine ⟨?_, rfl, ?_, ?_, ?_, ?_, ?_, ⟨by decide, by decide, by decide, by decide, by decide⟩,
    ?_⟩
  · intro v
    unfold ssl_ver_to_encaps
    split
    · simp
    · split_ifs <;> simp
  · intro v h
    have h2 := hne v "SSLv3" "SSLv2" (by decide) h
    simp [ssl_ver_to_encaps, h, h2]
  · intro v h
    have h2 := hne v "SSLv23" "SSLv2" (by decide) h
    have h3 := hne v "SSLv23" "SSLv3" (by decide) h
    simp [ssl_ver_to_encaps, h, h2, h3]
  · intro v h
    have h2 := hne v "TLSv1" "SSLv2" (by decide) h
    have h3 := hne v "TLSv1" "SSLv3" (by decide) h
    have h4 := hne v "TLSv1" "SSLv23" (by decide) h
    simp [ssl_ver_to_encaps, h, h2, h3, h4]
  · intro v h
    simp [ssl_ver_to_encaps, h]
  · intro v h1 h2 h3 h4
    simp [ssl_ver_to_encaps, h1, h2, h3, h4]
  · intro e prefs ctx args hver hin
    have hmsg : ∀ v : Option String,
        Event.ovas_scanner_context_new args ∉ (ssl_ver_to_encaps v).2 := by
      intro v
      unfold ssl_ver_to_encaps
      split
      · simp
      · split_ifs <;> simp
    have henc : (ssl_ver_to_encaps (some
        (match e.preferences_get_string prefs "ssl_version" with
          | none => "TLSv1"
          | some v => if v = "" then "TLSv1" else v))).1 = Encaps.TLSv1 := by
      rcases hver with hv | hv <;> rw [hv] <;> decide
    unfold init_ssl_ctx at hin
    split_ifs at hin
    · simp at hin
    · split at hin
      · simp at hin
      · simp only at hin
        split at hin
        · simp [hmsg] at hin
        · split at hin
          · simp [hmsg] at hin
          · split at hin
            · simp [hmsg] at hin
            · split at hin <;> simp [hmsg] at hin <;> rw [hin] <;> exact henc

/-- C14, an instance: with only the credential files in the preferences the
constructor is called, and the code it gets is TLSv1. -/
theorem ssl_ver_to_encaps_spec_witness :
    ssl_env_ok.preferences_get_string prefs_credentials "ssl_version" = none ∧
    Event.ovas_scanner_context_new
        ⟨Encaps.TLSv1, "cert.pem", "key.pem", none, "ca.pem", false⟩ ∈
      (init_ssl_ctx ssl_env_ok prefs_credentials none).run.events ∧
    (⟨Encaps.TLSv1, "cert.pem", "key.pem", none, "ca.pem", false⟩ : CtxArgs).encaps =
      Encaps.TLSv1 :=
  ⟨by decide, List.mem_cons_of_mem _ (List.mem_cons_self _ _),
   ssl_ver_to_encaps_spec.2.2.2.2.2.2.2.2 ssl_env_ok prefs_credentials none
      ⟨Encaps.TLSv1, "cert.pem", "key.pem", none, "ca.pem", false⟩ (Or.inl (by decide))
      (List.mem_cons_of_mem _ (List.mem_cons_self _ _))⟩

/-- C15 (as stated, refuted): the context is already built (handle 7). A further
call of `init_ssl_ctx` is no no-op: it calls `openvas_SSL_init` again, and when
that call fails the process exits with status 1. -/
theorem init_ssl_ctx_built_calls_init_again :
    init_ssl_ctx ssl_env_ok prefs_credentials (some 7) =
      ⟨⟨[Event.openvas_SSL_init], none⟩, some 7⟩ ∧
    init_ssl_ctx { ssl_env_ok with openvas_SSL_init := -1 } prefs_credentials (some 7) =
      ⟨⟨[Event.openvas_SSL_init, Event.fprintf_stderr "Could not initialize openvas SSL!"],
        some 1⟩, some 7⟩ :=
  ⟨rfl, rfl⟩

/-- C15 (amended): for every preferences value, a call of `init_ssl_ctx` with the
context already built calls `openvas_SSL_init` once more and does nothing else:
when that call succeeds the run is this one call, without exit; when it fails the
process exits with status 1. In both cases the context constructor is not called,
the same context stays in place, and the outcome depends neither on the
preferences nor on what reading them or the constructor would return. A context
built by a first call is therefore the context after every later call. -/
theorem init_ssl_ctx_idempotent (e : SslEnv) (prefs : arglist) (ctx : Nat) :
    (init_ssl_ctx e prefs (some ctx)).ovas_scanner_ctx = some ctx ∧
    (∀ args : CtxArgs,
      Event.ovas_scanner_context_new args ∉ (init_ssl_ctx e prefs (some ctx)).run.events) ∧
    (0 ≤ e.openvas_SSL_init →
      (init_ssl_ctx e prefs (some ctx)).run = ⟨[Event.openvas_SSL_init], none⟩) ∧
    (e.openvas_SSL_init < 0 →
      (init_ssl_ctx e prefs (some ctx)).run =
        ⟨[Event.openvas_SSL_init, Event.fprintf_stderr "Could not initialize openvas SSL!"],
          some 1⟩) ∧
    (∀ (e2 : SslEnv) (prefs2 : arglist), e2.openvas_SSL_init = e.openvas_SSL_init →
      init_ssl_ctx e2 prefs2 (some ctx) = init_ssl_ctx e prefs (some ctx)) ∧
    (∀ (e0 : SslEnv) (prefs0 : arglist),
      (init_ssl_ctx e0 prefs0 none).ovas_scanner_ctx = some ctx →
      (init_ssl_ctx e prefs (init_ssl_ctx e0 prefs0 none).ovas_scanner_ctx).ovas_scanner_ctx =
        some ctx) := by
  have hctx : (init_ssl_ctx e prefs (some ctx)).ovas_scanner_ctx = some ctx := by
    unfold init_ssl_ctx
    split_ifs <;> rfl
  refine ⟨hctx, ?_, ?_, ?_, ?_, ?_⟩
  · intro args
    unfold init_ssl_ctx
    split_ifs <;> simp
  · intro h
    unfold init_ssl_ctx
    rw [if_neg (not_lt.mpr h)]
  · intro h
    unfold init_ssl_ctx
    rw [if_pos h]
  · intro e2 prefs2 h
    unfold init_ssl_ctx
    rw [h]
  · intro e0 prefs0 h0
    rw [h0]
    exact hctx

/-- C15, an instance: the context built by a first call with the credential files
is still the context after a second call with other preferences. -/
theorem init_ssl_ctx_idempotent_witness :
    (init_ssl_ctx ssl_env_ok prefs_credentials none).ovas_scanner_ctx = some 1 ∧
    (init_ssl_ctx ssl_env_ok []
      (init_ssl_ctx ssl_env_ok prefs_credentials none).ovas_scanner_ctx).ovas_scanner_ctx =
        some 1 :=
  ⟨rfl, (init_ssl_ctx_idempotent ssl_env_ok [] 1).2.2.2.2.2 ssl_env_ok prefs_credentials rfl⟩

end Openvassd
